import Mathlib

/-!
# Chatty: chat identity and message lookup

A shallow embedding of the chat-identity code of Chatty
(`src/mm/chatty-mm-account.c`, `src/chatty-pp-chat.c`,
`src/matrix/chatty-ma-account.c`) together with the properties its
specification states about it.

C strings are lists of byte values (`none` for a `NULL` string), pointers to
objects are addresses with `0` for `NULL`, GLib arrays and list stores are
lists, and a C function that updates an object returns the updated object
next to its result.
-/

namespace Chatty

/-! ## C strings and the GLib string helpers -/

/-- A C string: the bytes before the terminating NUL. -/
abbrev CStr := List Nat

/-- The bytes of an ASCII literal. -/
def c_str (s : String) : CStr := s.toList.map Char.toNat

/-- The byte of the comma, the separator of recipient lists. -/
def COMMA : Nat := 44

/-- The C library's `strcmp`: negative, zero or positive as the first string is
before, equal to or after the second in byte order, where a string that ends
first is before its continuations. C fixes only the sign; the value here is the
difference of the first bytes that differ. -/
def strcmp : CStr → CStr → Int
  | [], [] => 0
  | [], b :: _ => 0 - (b : Int) - 1
  | a :: _, [] => (a : Int) + 1
  | a :: as, b :: bs => if a = b then strcmp as bs else (a : Int) - (b : Int)

/-- GLib's `g_strcmp0`: `strcmp` that accepts `NULL`, which sorts before every
string. -/
def g_strcmp0 : Option CStr → Option CStr → Int
  | none, none => 0
  | none, some _ => -1
  | some _, none => 1
  | some a, some b => strcmp a b

/-- The pieces of a string between the occurrences of a one-byte delimiter;
the string without a delimiter is its own single piece. -/
def split_on (d : Nat) : CStr → List CStr
  | [] => [[]]
  | c :: cs =>
    if c = d then [] :: split_on d cs
    else
      match split_on d cs with
      | [] => [[c]]
      | t :: ts => (c :: t) :: ts

/-- GLib's `g_strsplit (string, delimiter, -1)` for a one-byte delimiter: the
empty string gives the empty vector, any other string is cut at every
delimiter. -/
def g_strsplit (s : CStr) (d : Nat) : List CStr :=
  if s = [] then [] else split_on d s

/-- GLib's `g_strjoinv`: the strings of the vector with the separator between
each two neighbours. -/
def g_strjoinv (sep : CStr) : List CStr → CStr
  | [] => []
  | [s] => s
  | s :: t :: ts => s ++ sep ++ g_strjoinv sep (t :: ts)

/-- The strings a `NULL`-terminated vector holds: the entries before the first
`NULL`. -/
def strv_of_pdata : List (Option CStr) → List CStr
  | [] => []
  | none :: _ => []
  | some s :: rest => s :: strv_of_pdata rest

/-- The comparator `sort_strv` of chatty-mm-account.c. -/
def sort_strv (a b : CStr) : Int := g_strcmp0 (some a) (some b)

/-- GLib's `g_ptr_array_sort`: the array in the order of the comparator. -/
def g_ptr_array_sort {α : Type} (cmp : α → α → Int) (arr : List α) : List α :=
  arr.insertionSort (fun a b => cmp a b ≤ 0)

/-- GLib's `g_ptr_array_remove_index`. -/
def g_ptr_array_remove_index {α : Type} (arr : List α) (i : Nat) : List α :=
  arr.eraseIdx i

/-- The second loop of `create_sorted_numbers`:
`for (i = 0; i < sorted->len - 1; i++) if (g_strcmp0 (pdata[i], pdata[i + 1]) == 0) remove (i)`.
The index advances after every iteration, also after a removal. The first
argument bounds the number of iterations. -/
def remove_duplicates_loop : Nat → List (Option CStr) → Nat → List (Option CStr)
  | 0, arr, _ => arr
  | fuel + 1, arr, i =>
    if i < arr.length - 1 then
      if g_strcmp0 (arr.getD i none) (arr.getD (i + 1) none) = 0 then
        remove_duplicates_loop fuel (g_ptr_array_remove_index arr i) (i + 1)
      else
        remove_duplicates_loop fuel arr (i + 1)
    else arr

/-- The closed form of the second loop of `create_sorted_numbers`: of two equal
neighbours the first is dropped and the scan goes on after the second. -/
def skip_dedup {α : Type} [DecidableEq α] : List α → List α
  | [] => []
  | [x] => [x]
  | x :: y :: rest => if x = y then y :: skip_dedup rest else x :: skip_dedup (y :: rest)

/-- The specification's order on the entries of a key: every entry is before
its successor in byte order, so no entry occurs twice. -/
def strictly_ascending : List CStr → Bool
  | [] => true
  | [_] => true
  | a :: b :: rest => decide (strcmp a b < 0) && strictly_ascending (b :: rest)

/-! ## The SMS/MMS account (chatty-mm-account.c) -/

/-- The protocols of `ChattyProtocol` the sources name. -/
inductive ChattyProtocol where
  | NONE | SMS | MMS | MMS_SMS | XMPP | MATRIX | TELEGRAM | EMAIL | ANY
  deriving DecidableEq, Repr

/-- A `ChattyMmBuddy` as `chatty_mm_buddy_new (number, name)` makes it. -/
structure ChattyMmBuddy where
  number : CStr
  name : CStr
  deriving DecidableEq, Repr

/-- Modelled from the spec: the `ChattyMmChat` object of chatty-mm-chat.c, which
is not among the sources. A chat keeps the identity key it was created with
(what `chatty_chat_get_chat_name` returns, `none` for `NULL`), its protocol,
its 1:1 flag and its members. -/
structure ChattyMmChat where
  chat_name : Option CStr
  protocol : ChattyProtocol
  is_im : Bool
  users : List ChattyMmBuddy
  deriving DecidableEq, Repr

/-- Modelled from the spec: `chatty_mm_chat_new (name, alias, protocol, is_im)`
of chatty-mm-chat.c, a chat without members whose key is `name`. -/
def chatty_mm_chat_new (name : CStr) (protocol : ChattyProtocol) (is_im : Bool) : ChattyMmChat :=
  { chat_name := some name, protocol := protocol, is_im := is_im, users := [] }

/-- Modelled from the spec: `chatty_mm_chat_add_users` of chatty-mm-chat.c, which
adds the members to the chat. -/
def chatty_mm_chat_add_users (chat : ChattyMmChat) (members : List ChattyMmBuddy) : ChattyMmChat :=
  { chat with users := chat.users ++ members }

/-- The part of `ChattyMmAccount` the chat lookup reads and writes. -/
structure ChattyMmAccount where
  chat_list : List ChattyMmChat
  deriving DecidableEq, Repr

/-- The phone-number normaliser `chatty_utils_check_phonenumber (number, country)`
of chatty-utils.c, which is not among the sources: `none` is `NULL`. -/
abbrev Normalizer := CStr → CStr → Option CStr

/-- The first loop of `create_sorted_numbers`: every entry is replaced by its
normalised form, or kept when the normaliser returns `NULL`. -/
def canonical_number (check : Normalizer) (country_code : CStr) (entry : CStr) : CStr :=
  match check entry country_code with
  | some number => number
  | none => entry

/-- The function `create_sorted_numbers (numbers, members)`: the result string
and the `members` array afterwards (`none` when the caller passed `NULL`). -/
def create_sorted_numbers (check : Normalizer) (country_code : CStr) (numbers : CStr)
    (members : Option (List ChattyMmBuddy)) : CStr × Option (List ChattyMmBuddy) :=
  let strv := g_strsplit numbers COMMA
  let canonical := strv.map (canonical_number check country_code)
  let members := members.map (fun m => m ++ canonical.map (fun n => ChattyMmBuddy.mk n n))
  let sorted := g_ptr_array_sort sort_strv canonical
  -- g_ptr_array_set_size (sorted, sorted->len + 1): the new last entry is NULL
  let sorted : List (Option CStr) := sorted.map some ++ [none]
  let sorted := remove_duplicates_loop sorted.length sorted 0
  (g_strjoinv [COMMA] (strv_of_pdata sorted), members)

/-- The function `chatty_mm_account_find_chat`: the first chat of `chat_list`
whose name is the sorted key of the recipient list. -/
def chatty_mm_account_find_chat (check : Normalizer) (country_code : CStr)
    (self : ChattyMmAccount) (recipientlist : Option CStr) : Option ChattyMmChat :=
  match recipientlist with
  | none => none
  | some [] => none
  | some (c :: cs) =>
    let sorted_name := (create_sorted_numbers check country_code (c :: cs) none).1
    self.chat_list.find? (fun chat => g_strcmp0 chat.chat_name (some sorted_name) = 0)

/-- The function `chatty_mm_account_start_chat`: the chat it returns and the
account afterwards. -/
def chatty_mm_account_start_chat (check : Normalizer) (country_code : CStr)
    (self : ChattyMmAccount) (recipientlist : Option CStr) :
    Option ChattyMmChat × ChattyMmAccount :=
  match recipientlist with
  | none => (none, self)
  | some [] => (none, self)
  | some (c :: cs) =>
    match chatty_mm_account_find_chat check country_code self (some (c :: cs)) with
    | some chat => (some chat, self)
    | none =>
      let r := create_sorted_numbers check country_code (c :: cs) (some [])
      let sorted_name := r.1
      let members := r.2.getD []
      let chat :=
        if members.length = 1 then chatty_mm_chat_new sorted_name ChattyProtocol.MMS_SMS true
        else chatty_mm_chat_new sorted_name ChattyProtocol.MMS false
      let chat := chatty_mm_chat_add_users chat members
      (some chat, { self with chat_list := self.chat_list ++ [chat] })

/-- The rows of the table `phone` of tests/utils.c: number, country, expected
result of `chatty_utils_check_phonenumber`. -/
def phone : List (String × String × Option String) :=
  [("9633123456", "IN", some "+919633123456"),
   ("09633123456", "IN", some "+919633123456"),
   ("00919633123456", "IN", some "+919633123456"),
   ("+919633123456", "IN", some "+919633123456"),
   ("+919633123456", "US", some "+919633123456"),
   ("9633 123 456", "IN", some "+919633123456"),
   ("9633 123 456", "DE", some "+499633123456"),
   ("9633123456", "US", some "(963) 312-3456"),
   ("213-321-9876", "US", some "+12133219876"),
   ("(213) 321-9876", "US", some "+12133219876"),
   ("+1 213 321 9876", "US", some "+12133219876"),
   ("+1 213 321 9876", "DE", some "+12133219876"),
   ("+1 213 321 9876", "PL", some "+12133219876"),
   ("+1 213 321 9876", "GB", some "+12133219876"),
   ("+12133219876", "US", some "+12133219876"),
   ("00919633123456", "GB", some "+919633123456"),
   ("sms://00919633123456", "GB", some "+919633123456"),
   ("12345", "IN", some "12345"),
   ("12345", "US", some "12345"),
   ("12345", "DE", some "12345"),
   ("72404", "DE", some "72404"),
   ("5800678", "IN", some "5800678"),
   ("555555", "IN", some "555555"),
   ("5555", "PL", some "5555"),
   ("7126", "PL", some "7126"),
   ("80510", "PL", some "80510"),
   ("112", "DE", some "112"),
   ("112", "US", some "112"),
   ("112", "IN", some "112"),
   ("911", "US", some "911"),
   ("sms://911", "US", some "911"),
   ("BT-123", "IN", none),
   ("123-BT", "IN", none)]

/-- A normaliser that answers as the table `phone` of tests/utils.c expects and
returns `NULL` for every other input. -/
def phone_table_check : Normalizer := fun number country =>
  match phone.find? (fun row => c_str row.1 = number ∧ c_str row.2.1 = country) with
  | some row => row.2.2.map c_str
  | none => none

/-! ## The libpurple chat (chatty-pp-chat.c) -/

/-- An address of a C object. -/
abbrev Ptr := Nat

/-- The null pointer. -/
def NULL : Ptr := 0

/-- The type of a node of libpurple's buddy list. -/
inductive PurpleBlistNodeType where
  | GROUP_NODE | CONTACT_NODE | BUDDY_NODE | CHAT_NODE | OTHER_NODE
  deriving DecidableEq, Repr

/-- The values of libpurple's `PurpleConversationType`. -/
inductive PurpleConversationType where
  | UNKNOWN | IM | CHAT | MISC | ANY
  deriving DecidableEq, Repr

/-- What the chat code reads of libpurple's objects: the account of a
conversation (`conv->account`), the buddy-list node of a conversation
(`chatty_utils_get_conv_blist_node`, of chatty-utils.c, which is not among the
sources; `NULL` when there is none), the type of a buddy-list node, the type
and name of a conversation (`purple_conversation_get_type`,
`purple_conversation_get_name`), the account of a buddy and of a buddy-list
chat (`buddy->account`, `pp_chat->account`), the protocol of the account
object of a libpurple account (`chatty_item_get_protocols` of
`chatty_pp_account_get_object`) and the boolean settings of a buddy-list
node (`purple_blist_node_get_bool`). -/
structure Purple where
  conv_account : Ptr → Ptr
  conv_blist_node : Ptr → Ptr
  blist_node_type : Ptr → PurpleBlistNodeType
  conv_type : Ptr → PurpleConversationType
  conv_name : Ptr → CStr
  buddy_account : Ptr → Ptr
  chat_account : Ptr → Ptr
  account_protocols : Ptr → ChattyProtocol
  blist_node_bool : Ptr → String → Bool

/-- The values of `ChattyEncryption`. -/
inductive ChattyEncryption where
  | UNKNOWN | ENABLED | DISABLED | UNSUPPORTED
  deriving DecidableEq, Repr

/-- The values of `ChattyMsgStatus` the sources name, and the status of a
message none has been set on. -/
inductive ChattyMsgStatus where
  | UNKNOWN | SENT | DELIVERED | SENDING_FAILED
  deriving DecidableEq, Repr

/-- The values of `ChattyMsgDirection` the sources name. -/
inductive ChattyMsgDirection where
  | UNKNOWN | IN | OUT
  deriving DecidableEq, Repr

/-- Modelled from the spec: a `ChattyMessage` (chatty-message.c is not among the
sources): the object's address, its text, its optional correlation id, what
`chatty_message_get_id` returns (`none` for `NULL`), its delivery status, its
direction and the user `chatty_message_set_user` has attached (`none` for
`NULL`). -/
structure ChattyMessage where
  addr : Ptr
  id : Option CStr
  text : CStr
  status : ChattyMsgStatus := ChattyMsgStatus.UNKNOWN
  direction : ChattyMsgDirection := ChattyMsgDirection.UNKNOWN
  user : Option ChattyMmBuddy := none
  deriving DecidableEq, Repr

/-- The fields of `struct _ChattyPpChat`; the list stores are lists, oldest
message first. The sorted view of `chat_users` is left out. -/
structure ChattyPpChat where
  pp_account : Ptr
  history : Ptr
  account : Ptr
  buddy : Ptr
  pp_chat : Ptr
  conv : Ptr
  chat_users : List Ptr
  message_store : List ChattyMessage
  last_message : Option CStr
  chat_name : Option CStr
  unread_count : Nat
  last_msg_time : Nat
  encrypt : ChattyEncryption
  buddy_typing : Bool
  initial_history_loaded : Bool
  history_is_loading : Bool
  supports_encryption : Bool
  deriving DecidableEq, Repr

/-- A signal an object emits, by name. -/
abbrev Signal := String

/-- The object `g_object_new (CHATTY_TYPE_PP_CHAT, NULL)` returns: all fields
zero, then `chatty_pp_chat_init` creates the empty stores and sets `encrypt`. -/
def chatty_pp_chat_init : ChattyPpChat :=
  { pp_account := NULL, history := NULL, account := NULL, buddy := NULL, pp_chat := NULL,
    conv := NULL, chat_users := [], message_store := [], last_message := none,
    chat_name := none, unread_count := 0, last_msg_time := 0,
    encrypt := ChattyEncryption.UNSUPPORTED, buddy_typing := false,
    initial_history_loaded := false, history_is_loading := false,
    supports_encryption := false }

/-- The function `chatty_pp_chat_set_purple_chat`. The back-pointer
`node->ui_data`, which no function here reads, is not part of the model. -/
def chatty_pp_chat_set_purple_chat (self : ChattyPpChat) (chat : Ptr) : ChattyPpChat :=
  { self with pp_chat := chat }

/-- The function `chatty_pp_chat_set_purple_buddy`. The signal connection to the
buddy's `ui_data` object is not part of the model. -/
def chatty_pp_chat_set_purple_buddy (self : ChattyPpChat) (buddy : Ptr) : ChattyPpChat :=
  { self with buddy := buddy }

/-- The function `chatty_pp_chat_new_im_chat`: `none` is the `NULL` the
`g_return_val_if_fail` guards return. -/
def chatty_pp_chat_new_im_chat (account buddy : Ptr) (supports_encryption : Bool) :
    Option ChattyPpChat :=
  if account = NULL then none
  else if buddy = NULL then none
  else
    let self := chatty_pp_chat_init
    let self := { self with account := account }
    let self := { self with supports_encryption := supports_encryption }
    some (chatty_pp_chat_set_purple_buddy self buddy)

/-- The function `chatty_pp_chat_new_purple_chat`. -/
def chatty_pp_chat_new_purple_chat (pp_chat : Ptr) (supports_encryption : Bool) : ChattyPpChat :=
  let self := chatty_pp_chat_init
  let self := { self with supports_encryption := supports_encryption }
  chatty_pp_chat_set_purple_chat self pp_chat

/-- The function `chatty_pp_chat_set_purple_conv`. The back-pointer
`conv->ui_data` is not part of the model. -/
def chatty_pp_chat_set_purple_conv (purple : Purple) (self : ChattyPpChat) (conv : Ptr) :
    ChattyPpChat :=
  let self := { self with conv := conv }
  if conv = NULL then self
  else if self.pp_chat ≠ NULL ∨ self.buddy ≠ NULL then self
  else
    let node := purple.conv_blist_node conv
    if node ≠ NULL ∧ purple.blist_node_type node = PurpleBlistNodeType.CHAT_NODE then
      chatty_pp_chat_set_purple_chat self node
    else if node ≠ NULL ∧ purple.blist_node_type node = PurpleBlistNodeType.BUDDY_NODE then
      chatty_pp_chat_set_purple_buddy self node
    else self

/-- The function `chatty_pp_chat_new_purple_conv`. -/
def chatty_pp_chat_new_purple_conv (purple : Purple) (conv : Ptr) (supports_encryption : Bool) :
    ChattyPpChat :=
  let self := chatty_pp_chat_init
  let self := { self with supports_encryption := supports_encryption }
  chatty_pp_chat_set_purple_conv purple self conv

/-- The function `chatty_pp_chat_match_purple_conv`: its result and the chat
afterwards (a match through the buddy-list node stores the conversation). -/
def chatty_pp_chat_match_purple_conv (purple : Purple) (self : ChattyPpChat) (conv : Ptr) :
    Bool × ChattyPpChat :=
  if conv = NULL then (false, self)
  else if self.conv ≠ NULL ∧ conv = self.conv then (true, self)
  else if self.account ≠ NULL ∧ self.account ≠ purple.conv_account conv then (false, self)
  else
    let node := purple.conv_blist_node conv
    if node = NULL then (false, self)
    else if node = self.pp_chat ∨ node = self.buddy then (true, { self with conv := conv })
    else (false, self)

/-- The chat objects in memory, by address. -/
abbrev ChatHeap := Ptr → ChattyPpChat

/-- The function `chatty_pp_chat_are_same (a, b)` on two chat objects given by
their addresses: its result and the chat objects afterwards. -/
def chatty_pp_chat_are_same (purple : Purple) (heap : ChatHeap) (a b : Ptr) : Bool × ChatHeap :=
  if a = b then (true, heap)
  else if (heap a).account ≠ NULL ∧ (heap a).buddy ≠ NULL ∧
      (heap a).account = (heap b).account ∧ (heap a).buddy = (heap b).buddy then (true, heap)
  else if (heap a).conv ≠ NULL ∧ (heap a).conv = (heap b).conv then (true, heap)
  else if (heap a).pp_chat ≠ NULL ∧ (heap a).pp_chat = (heap b).pp_chat then (true, heap)
  else
    let first : Bool × ChatHeap :=
      if (heap a).conv ≠ NULL then
        let r := chatty_pp_chat_match_purple_conv purple (heap b) (heap a).conv
        (r.1, Function.update heap b r.2)
      else (false, heap)
    if first.1 then (true, first.2)
    else
      let heap := first.2
      let second : Bool × ChatHeap :=
        if (heap b).conv ≠ NULL then
          let r := chatty_pp_chat_match_purple_conv purple (heap a) (heap b).conv
          (r.1, Function.update heap a r.2)
        else (false, heap)
      if second.1 then (true, second.2) else (false, second.2)

/-- GLib's `g_str_equal`. -/
def g_str_equal (a b : CStr) : Bool := decide (strcmp a b = 0)

/-- The loop of `chatty_pp_chat_find_message_with_id`, `for (i = n; i > 0; i--)`,
from the value of `i` on: item `i - 1` decides. -/
def find_message_loop (store : List ChattyMessage) (id : CStr) : Nat → Option ChattyMessage
  | 0 => none
  | i + 1 =>
    match store[i]? with
    | none => none
    | some message =>
      match message.id with
      | none => none
      | some message_id =>
        if g_str_equal id message_id then some message
        else find_message_loop store id i

/-- The function `chatty_pp_chat_find_message_with_id`; `none` is `NULL`. -/
def chatty_pp_chat_find_message_with_id (self : ChattyPpChat) (id : Option CStr) :
    Option ChattyMessage :=
  match id with
  | none => none
  | some id =>
    let n_items := self.message_store.length
    if n_items = 0 then none
    else find_message_loop self.message_store id n_items

/-- The function `chatty_pp_chat_append_message`: the chat afterwards and the
signals emitted. -/
def chatty_pp_chat_append_message (self : ChattyPpChat) (message : ChattyMessage) :
    ChattyPpChat × List Signal :=
  ({ self with message_store := self.message_store ++ [message] }, ["changed"])

/-- The specification's "messages after the last id-less message", oldest
first: the longest final part of the list in which every message has an id. -/
def after_last_idless (store : List ChattyMessage) : List ChattyMessage :=
  (store.reverse.takeWhile (fun m => m.id.isSome)).reverse

/-- The specification's "most recent message whose id equals id" of a list
given oldest first. -/
def most_recent_with_id (store : List ChattyMessage) (id : CStr) : Option ChattyMessage :=
  store.reverse.find? (fun m => decide (m.id = some id))

/-- The search from the newest message, on the list given newest first. -/
def find_newest_first (id : CStr) : List ChattyMessage → Option ChattyMessage
  | [] => none
  | message :: older =>
    match message.id with
    | none => none
    | some message_id =>
      if g_str_equal id message_id then some message else find_newest_first id older

/-! ## Example states -/

/-- A libpurple state with one conversation, 30, of account 10, whose
buddy-list node is the buddy 20; the conversation is an XMPP IM conversation
named "alice@example.com/phone", and no buddy-list setting is set. -/
def example_purple : Purple :=
  { conv_account := fun _ => 10,
    conv_blist_node := fun conv => if conv = 30 then 20 else NULL,
    blist_node_type := fun _ => PurpleBlistNodeType.BUDDY_NODE,
    conv_type := fun _ => PurpleConversationType.IM,
    conv_name := fun _ => c_str "alice@example.com/phone",
    buddy_account := fun _ => 10,
    chat_account := fun _ => 10,
    account_protocols := fun _ => ChattyProtocol.XMPP,
    blist_node_bool := fun _ _ => false }

/-- Two chats that hold the conversation 30 and differ in account, buddy,
buddy-list chat and users. -/
def example_same_conv : ChatHeap := fun p =>
  if p = 1 then
    { chatty_pp_chat_init with account := 10, buddy := 20, conv := 30, chat_users := [7] }
  else
    { chatty_pp_chat_init with account := 11, pp_chat := 40, conv := 30, chat_users := [8, 9] }

/-- At address 1 a chat created from the conversation 30 whose conversation was
then taken away, at every other address a chat created for the buddy 20 of
account 10: both hold the buddy 20. -/
def example_same_buddy : ChatHeap := fun p =>
  if p = 1 then
    chatty_pp_chat_set_purple_conv example_purple
      (chatty_pp_chat_new_purple_conv example_purple 30 false) NULL
  else (chatty_pp_chat_new_im_chat 10 20 false).getD chatty_pp_chat_init

/-- Two chats with the same account and buddy, and no conversation. -/
def example_same_account_buddy : ChatHeap := fun _ =>
  (chatty_pp_chat_new_im_chat 10 20 false).getD chatty_pp_chat_init

/-- At address 1 the chat of a buddy-add event, at every other address the
chat of the live conversation 30 with that buddy. -/
def example_reconcile : ChatHeap := fun p =>
  if p = 1 then (chatty_pp_chat_new_im_chat 10 20 false).getD chatty_pp_chat_init
  else chatty_pp_chat_new_purple_conv example_purple 30 false

/-- A chat holding a message with id "a", a message without id and a message
with id "b", in this order. -/
def example_messages : ChattyPpChat :=
  { chatty_pp_chat_init with
    message_store := [{ addr := 1, id := some (c_str "a"), text := [] },
                      { addr := 2, id := none, text := [] },
                      { addr := 3, id := some (c_str "b"), text := [] }] }

/-! ## History, sending and settings of the libpurple chat (chatty-pp-chat.c) -/

/-- GLib's `g_list_store_splice (store, position, n_removals, additions)`; a
range that does not lie within the store fails the check
`position + n_removals <= n_items` and leaves the store unchanged. -/
def g_list_store_splice {α : Type} (store : List α) (position n_removals : Nat)
    (additions : List α) : List α :=
  if position + n_removals ≤ store.length then
    store.take position ++ additions ++ store.drop (position + n_removals)
  else store

/-- The function `chatty_pp_chat_prepend_messages`: the chat afterwards and the
signals emitted; `none` is a `NULL` array. -/
def chatty_pp_chat_prepend_messages (self : ChattyPpChat)
    (messages : Option (List ChattyMessage)) : ChattyPpChat × List Signal :=
  match messages with
  | none => (self, [])
  | some [] => (self, [])
  | some (m :: ms) =>
    ({ self with message_store := g_list_store_splice self.message_store 0 0 (m :: ms) },
     ["changed"])

/-- The error codes the sources name, and any other code by domain and number. -/
inductive GErrorCode where
  | G_IO_ERROR_NOT_FOUND
  | G_IO_ERROR_INVALID_ARGUMENT
  | G_IO_ERROR_NOT_SUPPORTED
  | G_IO_ERROR_CANCELLED
  | G_IO_ERROR_NOT_CONNECTED
  | OTHER (domain code : Nat)
  deriving DecidableEq, Repr

/-- A `GError`. -/
structure GError where
  code : GErrorCode
  message : String
  deriving DecidableEq, Repr

/-- How a `GTask` returns: `g_task_return_boolean` or `g_task_return_error`. -/
inductive TaskResult where
  | boolean (value : Bool)
  | error (e : GError)
  deriving DecidableEq, Repr

/-- A request to the history database:
`chatty_history_get_messages_async (history, chat, first message, count, ...)`,
where the first message is `NULL` for an empty message list. -/
structure HistoryRequest where
  first : Option ChattyMessage
  count : Nat
  deriving DecidableEq, Repr

/-- The function `chatty_pp_chat_real_past_messages`, the `load_past_messages`
of the class: the chat afterwards, the signals emitted and the requests sent
to the history database. -/
def chatty_pp_chat_real_past_messages (self : ChattyPpChat) (count : Nat) :
    ChattyPpChat × List Signal × List HistoryRequest :=
  if self.history_is_loading then (self, [], [])
  else
    let self := { self with history_is_loading := true }
    (self, ["notify::loading-history"], [{ first := self.message_store.head?, count := count }])

/-- The function `chatty_pp_chat_set_show_notifications`: libpurple's state
afterwards. -/
def chatty_pp_chat_set_show_notifications (purple : Purple) (self : ChattyPpChat)
    (show_notifications : Bool) : Purple :=
  if self.buddy ≠ NULL then
    { purple with blist_node_bool := fun node key =>
        if node = self.buddy ∧ key = "chatty-notifications" then show_notifications
        else purple.blist_node_bool node key }
  else if self.pp_chat ≠ NULL then
    { purple with blist_node_bool := fun node key =>
        if node = self.pp_chat ∧ key = "chatty-notifications" then show_notifications
        else purple.blist_node_bool node key }
  else purple

/-- The function `chatty_pp_chat_get_auto_join`. -/
def chatty_pp_chat_get_auto_join (purple : Purple) (self : ChattyPpChat) : Bool :=
  if self.buddy ≠ NULL then purple.blist_node_bool self.buddy "chatty-autojoin"
  else if self.pp_chat ≠ NULL then purple.blist_node_bool self.pp_chat "chatty-autojoin"
  else false

/-- The function `pp_chat_load_db_messages_cb`, the completion of a history
request, on what `chatty_history_get_messages_finish` returns (the array,
`none` for `NULL`, and the error, `none` for no error): the chat and libpurple's
state afterwards and the signals emitted. -/
def pp_chat_load_db_messages_cb (purple : Purple) (self : ChattyPpChat)
    (messages : Option (List ChattyMessage)) (error : Option GError) :
    ChattyPpChat × Purple × List Signal :=
  let self := { self with history_is_loading := false }
  let purple :=
    if error.isNone ∧ messages.isNone ∧ ¬ self.initial_history_loaded then
      chatty_pp_chat_set_show_notifications purple self true
    else purple
  let self := { self with initial_history_loaded := true }
  match messages with
  | some (m :: ms) =>
    if chatty_pp_chat_get_auto_join purple self then
      ({ self with message_store := g_list_store_splice self.message_store 0 0 (m :: ms) },
       purple, ["notify::loading-history", "changed"])
    else (self, purple, ["notify::loading-history"])
  | _ => (self, purple, ["notify::loading-history"])

/-- A chat together with the history requests sent and not yet completed. -/
structure HistoryLoad where
  chat : ChattyPpChat
  purple : Purple
  outstanding : List HistoryRequest

/-- What happens to the history of a chat: a call of `load_past_messages`, or
the history database completing the oldest request. -/
inductive HistoryEvent where
  | load_past_messages (count : Nat)
  | load_completed (messages : Option (List ChattyMessage)) (error : Option GError)
  deriving DecidableEq, Repr

/-- One event; a completion cannot happen without an outstanding request. -/
def history_step (s : HistoryLoad) : HistoryEvent → Option HistoryLoad
  | HistoryEvent.load_past_messages count =>
    let r := chatty_pp_chat_real_past_messages s.chat count
    some { s with chat := r.1, outstanding := s.outstanding ++ r.2.2 }
  | HistoryEvent.load_completed messages error =>
    match s.outstanding with
    | [] => none
    | _ :: rest =>
      let r := pp_chat_load_db_messages_cb s.purple s.chat messages error
      some { chat := r.1, purple := r.2.1, outstanding := rest }

/-- A sequence of events. -/
def history_run (s : HistoryLoad) : List HistoryEvent → Option HistoryLoad
  | [] => some s
  | e :: es =>
    match history_step s e with
    | none => none
    | some s1 => history_run s1 es

/-- The function `chatty_pp_chat_get_protocols`, the `get_protocols` of the class
that `chatty_item_get_protocols` calls. -/
def chatty_pp_chat_get_protocols (purple : Purple) (self : ChattyPpChat) : ChattyProtocol :=
  if self.buddy ≠ NULL then purple.account_protocols (purple.buddy_account self.buddy)
  else if self.pp_chat ≠ NULL then purple.account_protocols (purple.chat_account self.pp_chat)
  else if self.conv ≠ NULL then purple.account_protocols (purple.conv_account self.conv)
  else ChattyProtocol.ANY

/-- The function `chatty_pp_chat_is_im`, the `is_im` of the class that
`chatty_chat_is_im` calls. -/
def chatty_pp_chat_is_im (purple : Purple) (self : ChattyPpChat) : Bool :=
  if self.buddy ≠ NULL then true
  else
    let type :=
      if self.conv ≠ NULL then purple.conv_type self.conv else PurpleConversationType.UNKNOWN
    decide (type = PurpleConversationType.IM)

/-- The function `chatty_pp_chat_has_encryption_support`. -/
def chatty_pp_chat_has_encryption_support (purple : Purple) (self : ChattyPpChat) : Bool :=
  let protocol := chatty_pp_chat_get_protocols purple self
  if protocol = ChattyProtocol.XMPP ∧ ¬ self.supports_encryption then false
  else
    let type :=
      if self.conv ≠ NULL then purple.conv_type self.conv else PurpleConversationType.UNKNOWN
    if self.conv ≠ NULL ∧ type = PurpleConversationType.IM ∧ protocol = ChattyProtocol.XMPP then
      true
    else false

/-- A call into libpurple: a message sent on an IM or chat conversation, an
invitation sent for the chat of a conversation, a signal emitted for the
encryption plugin with the account and the name it is given. -/
inductive PurpleCall where
  | purple_conv_im_send (conv : Ptr) (msg : CStr)
  | purple_conv_chat_send (conv : Ptr) (msg : CStr)
  | serv_chat_invite (conv : Ptr) (invite_msg username : Option CStr)
  | purple_signal_emit (signal : String) (account : Ptr) (name : Option CStr)
  deriving DecidableEq, Repr

/-- The function `chatty_pp_chat_send_message_async`: how the task returns, the
calls into libpurple and the chat afterwards. -/
def chatty_pp_chat_send_message_async (purple : Purple) (self : ChattyPpChat)
    (message : ChattyMessage) : TaskResult × List PurpleCall × ChattyPpChat :=
  if self.conv = NULL then
    (TaskResult.error { code := GErrorCode.G_IO_ERROR_NOT_CONNECTED,
                        message := "PurpleConversation not found" }, [], self)
  else
    let msg := message.text
    let calls :=
      if purple.conv_type self.conv = PurpleConversationType.IM then
        [PurpleCall.purple_conv_im_send self.conv msg]
      else if purple.conv_type self.conv = PurpleConversationType.CHAT then
        [PurpleCall.purple_conv_chat_send self.conv msg]
      else []
    (TaskResult.boolean true, calls, self)

/-- The function `chatty_pp_chat_invite_async`: how the task returns and the
calls into libpurple. -/
def chatty_pp_chat_invite_async (purple : Purple) (self : ChattyPpChat)
    (username invite_msg : Option CStr) : TaskResult × List PurpleCall :=
  if self.conv = NULL ∨ chatty_pp_chat_get_protocols purple self ≠ ChattyProtocol.XMPP ∨
      chatty_pp_chat_is_im purple self = true then
    (TaskResult.error { code := GErrorCode.G_IO_ERROR_NOT_SUPPORTED,
                        message := "Chat doesn't supports invite" }, [])
  else
    (TaskResult.boolean true, [PurpleCall.serv_chat_invite self.conv invite_msg username])

/-- The function `chatty_pp_chat_get_unread_count`. -/
def chatty_pp_chat_get_unread_count (self : ChattyPpChat) : Nat := self.unread_count

/-- The function `chatty_pp_chat_set_unread_count`: the chat afterwards and the
signals emitted. -/
def chatty_pp_chat_set_unread_count (self : ChattyPpChat) (unread_count : Nat) :
    ChattyPpChat × List Signal :=
  if self.unread_count = unread_count then (self, [])
  else ({ self with unread_count := unread_count }, ["changed"])

/-- The byte of the slash, which separates the resource of a Jabber id. -/
def SLASH : Nat := 47

/-- The function `jabber_id_strip_resource`: the first piece of the name cut at
slashes, `NULL` for the empty name. -/
def jabber_id_strip_resource (name : CStr) : Option CStr :=
  (g_strsplit name SLASH).head?

/-- The function `chatty_pp_chat_get_encryption`. -/
def chatty_pp_chat_get_encryption (self : ChattyPpChat) : ChattyEncryption := self.encrypt

/-- The function `chatty_pp_chat_set_encryption`: the chat afterwards, the
signals emitted on the chat and the requests to the encryption plugin. -/
def chatty_pp_chat_set_encryption (purple : Purple) (self : ChattyPpChat) (enable : Bool) :
    ChattyPpChat × List Signal × List PurpleCall :=
  if ¬ chatty_pp_chat_has_encryption_support purple self then
    (self, ["notify::encrypt"], [])
  else
    let name := purple.conv_name self.conv
    let pp_account := purple.conv_account self.conv
    let stripped := jabber_id_strip_resource name
    (self, [],
     [PurpleCall.purple_signal_emit (if enable then "lurch-enable-im" else "lurch-disable-im")
        pp_account stripped])

/-! ## Sending an SMS (chatty-mm-account.c) -/

/-- Modelled from the spec: `chatty_message_set_status (message, status, 0)` of
chatty-message.c, which is not among the sources: it sets the status of the
message. -/
def chatty_message_set_status (message : ChattyMessage) (status : ChattyMsgStatus) :
    ChattyMessage :=
  { message with status := status }

/-- The rows `chatty_history_add_message` has written: the chat and the message
as it was when it was written. -/
abbrev HistoryDb := List (ChattyMmChat × ChattyMessage)

/-- Modelled from the spec: `chatty_history_add_message (history, chat, message)`
of chatty-history.c, which is not among the sources: it stores the message for
the chat. -/
def chatty_history_add_message (history_db : HistoryDb) (chat : ChattyMmChat)
    (message : ChattyMessage) : HistoryDb :=
  history_db ++ [(chat, message)]

/-- What a send operation of `chatty_mm_account_send_message_async` works on:
the chat and the message attached to the task, the history database of the
account, and how the task has returned (`none` while it has not). -/
structure SmsSend where
  chat : ChattyMmChat
  message : ChattyMessage
  history_db : HistoryDb
  task_result : Option TaskResult
  deriving DecidableEq, Repr

/-- The work a callback of the send operation hands on: nothing, the
`mm_sms_send` of the created SMS (completed by `sms_send_cb`), or
`get_message_reference`, called at once or from a timeout of 100 ms. -/
inductive SmsNext where
  | nothing
  | mm_sms_send (sms : Ptr)
  | get_message_reference (sms : Ptr)
  | get_message_reference_after_timeout (sms : Ptr)
  deriving DecidableEq, Repr

/-- The function `sms_create_cb` on what `mm_modem_messaging_create_finish`
returns: the error when it returns `NULL`, the SMS otherwise. -/
def sms_create_cb (s : SmsSend) (create_finish : Except GError Ptr) : SmsSend × SmsNext :=
  match create_finish with
  | Except.error error =>
    let message := chatty_message_set_status s.message ChattyMsgStatus.SENDING_FAILED
    let history_db := chatty_history_add_message s.history_db s.chat message
    ({ s with message := message, history_db := history_db,
              task_result := some (TaskResult.error error) }, SmsNext.nothing)
  | Except.ok sms => (s, SmsNext.mm_sms_send sms)

/-- The function `sms_send_cb` on what `mm_sms_send_finish` returns (the error
when it returns FALSE) and on the message reference of the SMS. -/
def sms_send_cb (s : SmsSend) (sms : Ptr) (send_finish : Except GError Unit)
    (message_reference : Nat) : SmsSend × SmsNext :=
  match send_finish with
  | Except.error error =>
    let message := chatty_message_set_status s.message ChattyMsgStatus.SENDING_FAILED
    let history_db := chatty_history_add_message s.history_db s.chat message
    ({ s with message := message, history_db := history_db,
              task_result := some (TaskResult.error error) }, SmsNext.nothing)
  | Except.ok _ =>
    let message := chatty_message_set_status s.message ChattyMsgStatus.SENT
    if message_reference ≠ 0 then
      ({ s with message := message }, SmsNext.get_message_reference sms)
    else
      ({ s with message := message }, SmsNext.get_message_reference_after_timeout sms)

/-! ## The Matrix account (matrix/chatty-ma-account.c) -/

/-- The values of `ChattyStatus`. -/
inductive ChattyStatus where
  | UNKNOWN | DISCONNECTED | CONNECTING | CONNECTED
  deriving DecidableEq, Repr

/-- What the account reads of its `CmClient`, an object of the Matrix client
library: whether it is enabled (`cm_client_get_enabled`), and the rooms of its
two list models (`cm_client_get_joined_rooms`, `cm_client_get_invited_rooms`),
each room by its address. -/
structure CmClient where
  enabled : Bool
  joined_rooms : List Ptr := []
  invited_rooms : List Ptr := []
  deriving DecidableEq, Repr

/-- The fields of `struct _ChattyMaAccount` that connecting, disconnecting and
the chat list read and write; `chat_list` holds the addresses of the chat
objects. -/
structure ChattyMaAccount where
  cm_client : CmClient
  status : ChattyStatus
  connect_id : Nat
  chat_list : List Ptr := []
  deriving DecidableEq, Repr

/-- A function a timeout of the main loop calls. -/
inductive SourceFunc where
  | account_connect
  deriving DecidableEq, Repr

/-- The timeouts of GLib's main loop: the id given last, and for every
timeout that is scheduled its id, its interval in milliseconds and its
function. -/
structure MainLoop where
  last_id : Nat
  timeouts : List (Nat × Nat × SourceFunc)
  deriving DecidableEq, Repr

/-- GLib's `g_timeout_add`: the id of the new timeout, which is not 0, and the
main loop afterwards. -/
def g_timeout_add (loop : MainLoop) (interval : Nat) (function : SourceFunc) : Nat × MainLoop :=
  (loop.last_id + 1,
   { last_id := loop.last_id + 1,
     timeouts := loop.timeouts ++ [(loop.last_id + 1, interval, function)] })

/-- GLib's `g_source_remove`. -/
def g_source_remove (loop : MainLoop) (id : Nat) : MainLoop :=
  { loop with timeouts := loop.timeouts.filter (fun t => t.1 ≠ id) }

/-- The function `chatty_ma_account_get_enabled`. -/
def chatty_ma_account_get_enabled (self : ChattyMaAccount) : Bool := self.cm_client.enabled

/-- The function `chatty_ma_account_get_status`. -/
def chatty_ma_account_get_status (self : ChattyMaAccount) : ChattyStatus := self.status

/-- A call into the Matrix client library. -/
inductive CmCall where
  | cm_client_start_sync
  | cm_client_stop_sync
  | cm_room_leave_async (room : Ptr)
  deriving DecidableEq, Repr

/-- The function `account_connect`, which the timeout of
`chatty_ma_account_connect` calls. -/
def account_connect (self : ChattyMaAccount) : ChattyMaAccount × List CmCall :=
  ({ self with connect_id := 0 }, [CmCall.cm_client_start_sync])

/-- The function `chatty_ma_account_connect`: the account and the main loop
afterwards. The argument `delay` is not read. -/
def chatty_ma_account_connect (self : ChattyMaAccount) (loop : MainLoop) (_delay : Bool) :
    ChattyMaAccount × MainLoop :=
  if ¬ chatty_ma_account_get_enabled self then (self, loop)
  else
    let status := chatty_ma_account_get_status self
    if status = ChattyStatus.CONNECTING ∨ status = ChattyStatus.CONNECTED then (self, loop)
    else
      -- g_clear_handle_id (&self->connect_id, g_source_remove)
      let loop := if self.connect_id ≠ 0 then g_source_remove loop self.connect_id else loop
      let self := { self with connect_id := 0 }
      let r := g_timeout_add loop 300 SourceFunc.account_connect
      ({ self with connect_id := r.1 }, r.2)

/-! ## Example states of history, sending and connecting -/

/-- A chat created from the conversation 31, which has no buddy-list node: it
holds neither a buddy nor a buddy-list chat. Its message list is one message. -/
def example_conv_only : ChattyPpChat :=
  { chatty_pp_chat_new_purple_conv example_purple 31 false with
    message_store := [{ addr := 5, id := none, text := c_str "new" }] }

/-- A batch of two older messages. -/
def example_batch : List ChattyMessage :=
  [{ addr := 6, id := none, text := c_str "old 1" },
   { addr := 7, id := none, text := c_str "old 2" }]

/-- A libpurple state as `example_purple`, in which the conversation 30 is a
chat-room conversation without a buddy-list node. -/
def example_purple_room : Purple :=
  { example_purple with
    conv_type := fun _ => PurpleConversationType.CHAT,
    conv_blist_node := fun _ => NULL }

/-- A send operation for the 1:1 chat "112" before the modem answers. -/
def example_sms_send : SmsSend :=
  { chat := chatty_mm_chat_new (c_str "112") ChattyProtocol.MMS_SMS true,
    message := { addr := 8, id := some (c_str "uid"), text := c_str "hello" },
    history_db := [],
    task_result := none }

/-- An error of the modem. -/
def example_modem_error : GError :=
  { code := GErrorCode.OTHER 1 2, message := "modem failure" }

/-- A connected Matrix account with no timeout scheduled. -/
def example_ma_account : ChattyMaAccount :=
  { cm_client := { enabled := true }, status := ChattyStatus.CONNECTED, connect_id := 0 }

/-- A main loop with one timeout of some other owner. -/
def example_main_loop : MainLoop :=
  { last_id := 4, timeouts := [(4, 1000, SourceFunc.account_connect)] }

/-- A chat without history request outstanding. -/
def example_history_start : HistoryLoad :=
  { chat := example_conv_only, purple := example_purple, outstanding := [] }

/-- Two calls of `load_past_messages`, the completion of the request, and a
third call. -/
def example_history_events : List HistoryEvent :=
  [HistoryEvent.load_past_messages 10, HistoryEvent.load_past_messages 10,
   HistoryEvent.load_completed (some example_batch) none,
   HistoryEvent.load_past_messages 5]

/-- The state after `example_history_events`. -/
def example_history_end : HistoryLoad :=
  { chat := { example_conv_only with history_is_loading := true,
                                     initial_history_loaded := true },
    purple := example_purple,
    outstanding := [{ first := some { addr := 5, id := none, text := c_str "new" },
                      count := 5 }] }

/-! ## Status and chat list of the Matrix account (matrix/chatty-ma-account.c) -/

/-- The macro `ma_account_update_status (self, _status)`: the account afterwards
and the signals emitted. -/
def ma_account_update_status (self : ChattyMaAccount) (status : ChattyStatus) :
    ChattyMaAccount × List Signal :=
  if self.status ≠ status then ({ self with status := status }, ["notify::status"])
  else (self, [])

/-- The function `chatty_ma_account_disconnect`: the account afterwards, the
signals emitted and the calls into the Matrix client library. -/
def chatty_ma_account_disconnect (self : ChattyMaAccount) :
    ChattyMaAccount × List Signal × List CmCall :=
  let r := ma_account_update_status self ChattyStatus.DISCONNECTED
  (r.1, r.2, [CmCall.cm_client_stop_sync])

/-- The values of `ChattyItemState` the sources name. -/
inductive ChattyItemState where
  | VISIBLE | HIDDEN | ARCHIVED | BLOCKED
  deriving DecidableEq, Repr

/-- Modelled from the spec: a `ChattyMaChat` object (chatty-ma-chat.c and
chatty-item.c are not among the sources): the room it was created for
(`chatty_ma_chat_get_cm_room`) and its item state (`chatty_item_get_state`). -/
structure ChattyMaChat where
  room : Ptr
  state : ChattyItemState
  deriving DecidableEq, Repr

/-- A Matrix account with the chat objects in memory: the objects by address
and the address `g_object_new` gives the next chat object. -/
structure MaWorld where
  account : ChattyMaAccount
  chats : Ptr → ChattyMaChat
  next_chat : Ptr

/-- Modelled from the spec: `chatty_ma_chat_new_with_room (room)` of
chatty-ma-chat.c, a new visible chat object for the room, at the next free
address. -/
def chatty_ma_chat_new_with_room (w : MaWorld) (room : Ptr) : Ptr × MaWorld :=
  (w.next_chat,
   { w with chats := Function.update w.chats w.next_chat
                       { room := room, state := ChattyItemState.VISIBLE },
            next_chat := w.next_chat + 1 })

/-- The first loop of `joined_rooms_changed`: a chat object for each of the
`added` items of the model from `position` on, in this order. -/
def joined_rooms_new_chats (w : MaWorld) (model : List Ptr) (position : Nat) :
    Nat → List Ptr × MaWorld
  | 0 => ([], w)
  | added + 1 =>
    let r := joined_rooms_new_chats w model position added
    let room := model.getD (position + added) NULL
    let c := chatty_ma_chat_new_with_room r.2 room
    (r.1 ++ [c.1], c.2)

/-- The function `joined_rooms_changed (self, position, removed, added, model)`,
the handler of "items-changed" of both room models. -/
def joined_rooms_changed (w : MaWorld) (position removed added : Nat) (model : List Ptr) :
    MaWorld :=
  let r := joined_rooms_new_chats w model position added
  let w := r.2
  { w with account := { w.account with
      chat_list := g_list_store_splice w.account.chat_list position removed r.1 } }

/-- The function `ma_account_set_client`: the client is stored and the chats of
its joined rooms and of its invited rooms are created. -/
def ma_account_set_client (w : MaWorld) (client : CmClient) : MaWorld :=
  let w := { w with account := { w.account with cm_client := client } }
  let joined_rooms := client.joined_rooms
  let w := joined_rooms_changed w 0 0 joined_rooms.length joined_rooms
  let invited_rooms := client.invited_rooms
  joined_rooms_changed w 0 0 invited_rooms.length invited_rooms

/-- A change of one of the room models of the client: at `position`, `removed`
rooms are replaced by the rooms `added`, and the model emits "items-changed". -/
inductive RoomsEvent where
  | joined_rooms_items_changed (position removed : Nat) (added : List Ptr)
  | invited_rooms_items_changed (position removed : Nat) (added : List Ptr)
  deriving DecidableEq, Repr

/-- One change of a room model, followed by its handler. -/
def rooms_step (w : MaWorld) : RoomsEvent → MaWorld
  | RoomsEvent.joined_rooms_items_changed position removed added =>
    let model := g_list_store_splice w.account.cm_client.joined_rooms position removed added
    let w := { w with account := { w.account with
      cm_client := { w.account.cm_client with joined_rooms := model } } }
    joined_rooms_changed w position removed added.length model
  | RoomsEvent.invited_rooms_items_changed position removed added =>
    let model := g_list_store_splice w.account.cm_client.invited_rooms position removed added
    let w := { w with account := { w.account with
      cm_client := { w.account.cm_client with invited_rooms := model } } }
    joined_rooms_changed w position removed added.length model

/-- A sequence of changes of the room models. -/
def rooms_run (w : MaWorld) : List RoomsEvent → MaWorld
  | [] => w
  | e :: es => rooms_run (rooms_step w e) es

/-- The rooms of the chats of `chat_list`, in the order of the list. -/
def chat_list_rooms (w : MaWorld) : List Ptr :=
  w.account.chat_list.map (fun chat => (w.chats chat).room)

/-- Modelled from the spec: `chatty_utils_remove_list_item (store, item)` of
chatty-utils.c, which is not among the sources: the first occurrence of the
item is removed, and the result tells whether there was one. -/
def chatty_utils_remove_list_item (store : List Ptr) (item : Ptr) : Bool × List Ptr :=
  (decide (item ∈ store), store.erase item)

/-- Modelled from the spec: `chatty_item_set_state` of chatty-item.c, which is
not among the sources: it sets the state of the item. -/
def chatty_item_set_state (w : MaWorld) (chat : Ptr) (state : ChattyItemState) : MaWorld :=
  { w with chats := Function.update w.chats chat { w.chats chat with state := state } }

/-- Modelled from the spec: `chatty_item_get_state` of chatty-item.c. -/
def chatty_item_get_state (w : MaWorld) (chat : Ptr) : ChattyItemState := (w.chats chat).state

/-- The task of `chatty_ma_account_leave_chat_async`: the chat that is left and
the value stored under "state". -/
structure LeaveTask where
  chat : Ptr
  state : ChattyItemState
  deriving DecidableEq, Repr

/-- The function `chatty_ma_account_leave_chat_async`: the world afterwards, the
task handed to `cm_room_leave_async` (`none` when the function returns at
`g_return_if_reached`) and the calls into the Matrix client library. -/
def chatty_ma_account_leave_chat_async (w : MaWorld) (chat : Ptr) :
    MaWorld × Option LeaveTask × List CmCall :=
  let r := chatty_utils_remove_list_item w.account.chat_list chat
  if ¬ r.1 then (w, none, [])
  else
    let w := { w with account := { w.account with chat_list := r.2 } }
    let task : LeaveTask := { chat := chat, state := chatty_item_get_state w chat }
    let w := chatty_item_set_state w chat ChattyItemState.HIDDEN
    (w, some task, [CmCall.cm_room_leave_async (w.chats chat).room])

/-- The function `ma_account_leave_chat_cb` on what `cm_room_leave_finish`
returns: the world afterwards and how the task returns. -/
def ma_account_leave_chat_cb (w : MaWorld) (task : LeaveTask) (success : Bool)
    (error : Option GError) : MaWorld × TaskResult :=
  let w :=
    if ¬ success then
      let w := { w with account := { w.account with
        chat_list := w.account.chat_list ++ [task.chat] } }
      let w := chatty_item_set_state w task.chat ChattyItemState.HIDDEN
      let old_state := task.state
      chatty_item_set_state w task.chat old_state
    else w
  match error with
  | some e => (w, TaskResult.error e)
  | none => (w, TaskResult.boolean success)

/-! ## Status of the SMS account (chatty-mm-account.c) -/

/-- ModemManager's `MM_MODEM_STATE_ENABLING`. -/
def MM_MODEM_STATE_ENABLING : Int := 5

/-- ModemManager's `MM_MODEM_STATE_ENABLED`. -/
def MM_MODEM_STATE_ENABLED : Int := 6

/-- What the account reads of a `ChattyMmDevice`: the state of the modem of its
`mm_object`, `none` when `mm_object_peek_modem` returns `NULL`. -/
structure ChattyMmDevice where
  modem_state : Option Int
  deriving DecidableEq, Repr

/-- The fields of `struct _ChattyMmAccount` that the status functions read and
write. -/
structure ChattyMmAccountStatus where
  status : ChattyStatus
  device_list : List ChattyMmDevice
  deriving DecidableEq, Repr

/-- The loop of `chatty_mm_account_get_status` over the devices: the status
after it. -/
def get_status_loop (status : ChattyStatus) : List ChattyMmDevice → ChattyStatus
  | [] => status
  | device :: devices =>
    match device.modem_state with
    | some state =>
      if state ≥ MM_MODEM_STATE_ENABLED then ChattyStatus.CONNECTED
      else get_status_loop status devices
    | none => get_status_loop status devices

/-- The function `chatty_mm_account_get_status`: the status it returns and the
account afterwards. -/
def chatty_mm_account_get_status (self : ChattyMmAccountStatus) :
    ChattyStatus × ChattyMmAccountStatus :=
  if self.status ≠ ChattyStatus.UNKNOWN then (self.status, self)
  else
    let devices := self.device_list
    let n_items := devices.length
    let self := if n_items = 0 then { self with status := ChattyStatus.DISCONNECTED } else self
    let self := { self with status := get_status_loop self.status devices }
    let self :=
      if self.status = ChattyStatus.UNKNOWN then { self with status := ChattyStatus.DISCONNECTED }
      else self
    (self.status, self)

/-- The function `mm_account_modem_state_changed` on the new state of the
modem: the account afterwards and the signals emitted. -/
def mm_account_modem_state_changed (self : ChattyMmAccountStatus) (state : Int) :
    ChattyMmAccountStatus × List Signal :=
  if (state ≤ MM_MODEM_STATE_ENABLING ∧ self.status = ChattyStatus.CONNECTED) ∨
      (state > MM_MODEM_STATE_ENABLING ∧ self.status ≠ ChattyStatus.CONNECTED) then
    ({ self with status := ChattyStatus.UNKNOWN }, ["notify::status"])
  else (self, [])

/-! ## Receiving an MMS (chatty-mm-account.c) -/

/-- The loop of `chatty_mm_account_recieve_mms_cb` that looks for the sender
among the users of the chat: the value of `senderbuddy` after it, from its
value before. -/
def find_sender_loop (check : Normalizer) (country_code sender : CStr) :
    Option ChattyMmBuddy → List ChattyMmBuddy → Option ChattyMmBuddy
  | senderbuddy, [] => senderbuddy
  | _, buddy :: users =>
    let buddy_number := buddy.number
    let phone1 :=
      match check buddy_number country_code with
      | some phone => phone
      | none => buddy_number
    let phone2 :=
      match check sender country_code with
      | some phone => phone
      | none => buddy_number
    if g_strcmp0 (some phone1) (some phone2) = 0 then some buddy
    else find_sender_loop check country_code sender (some buddy) users

/-- Modelled from the spec: `chatty_mm_chat_find_message_with_id` of
chatty-mm-chat.c, which is not among the sources: the search of the chat
aggregate from the newest message, as `chatty_pp_chat_find_message_with_id`. -/
def chatty_mm_chat_find_message_with_id (messages : List ChattyMessage) (id : Option CStr) :
    Option ChattyMessage :=
  match id with
  | none => none
  | some id => find_message_loop messages id messages.length

/-- What `chatty_mm_account_recieve_mms_cb` has done: the account afterwards,
the chat of the message, the message as it was appended to the chat (`none`
when it was not appended), the message of the chat whose status was updated
instead, and the history database. -/
structure MmsReceived where
  account : ChattyMmAccount
  chat : Option ChattyMmChat
  appended : Option ChattyMessage
  updated : Option ChattyMessage
  history_db : HistoryDb
  deriving DecidableEq, Repr

/-- The function `chatty_mm_account_recieve_mms_cb`, given the messages each
chat holds. Without a chat (a `NULL` or empty recipient list) nothing is
done. -/
def chatty_mm_account_recieve_mms_cb (check : Normalizer) (country_code : CStr)
    (self : ChattyMmAccount) (messages : ChattyMmChat → List ChattyMessage)
    (history_db : HistoryDb) (message : ChattyMessage) (sender : CStr)
    (recipientlist : Option CStr) : MmsReceived :=
  let r := chatty_mm_account_start_chat check country_code self recipientlist
  match r.1 with
  | none =>
    { account := r.2, chat := none, appended := none, updated := none,
      history_db := history_db }
  | some chat =>
    match chatty_mm_chat_find_message_with_id (messages chat) message.id with
    | some messagecheck =>
      { account := r.2, chat := some chat, appended := none,
        updated := some (chatty_message_set_status messagecheck message.status),
        history_db := chatty_history_add_message history_db chat message }
    | none =>
      let message_dir := message.direction
      let senderbuddy : Option ChattyMmBuddy :=
        if message_dir = ChattyMsgDirection.IN then
          find_sender_loop check country_code sender none chat.users
        else if message_dir = ChattyMsgDirection.OUT then
          some { number := sender, name := sender }
        else none
      let message := { message with user := senderbuddy }
      { account := r.2, chat := some chat, appended := some message, updated := none,
        history_db := chatty_history_add_message history_db chat message }

/-! ## Example states of the Matrix and SMS accounts -/

/-- A Matrix account without client rooms and without chats; the next chat
object gets the address 1000. -/
def example_ma_world : MaWorld :=
  { account := { cm_client := { enabled := true }, status := ChattyStatus.DISCONNECTED,
                 connect_id := 0 },
    chats := fun _ => { room := NULL, state := ChattyItemState.VISIBLE },
    next_chat := 1000 }

/-- A client with the joined rooms 101 and 102 and the invited room 201. -/
def example_cm_client : CmClient :=
  { enabled := true, joined_rooms := [101, 102], invited_rooms := [201] }

/-- The account of `example_ma_world` after `ma_account_set_client` with
`example_cm_client`, with the chat of room 101, at address 1000, archived. -/
def example_ma_rooms : MaWorld :=
  chatty_item_set_state (ma_account_set_client example_ma_world example_cm_client) 1000
    ChattyItemState.ARCHIVED

/-- An incoming MMS. -/
def example_mms : ChattyMessage :=
  { addr := 11, id := some (c_str "mms-1"), text := c_str "hi",
    direction := ChattyMsgDirection.IN }

/-! ## Stripping the resource of a Jabber id -/

/-- The specification's "substring of the id before its first '/'", the whole
id when it contains no '/'. -/
def before_first_slash (id : CStr) : CStr := id.takeWhile (fun c => c ≠ SLASH)

/-- Modelled from the spec: `chatty_utils_jabber_id_strip` of chatty-utils.c,
which is not among the sources: the id is cut at slashes and the first piece
is returned, as in `jabber_id_strip_resource`, which chatty-pp-chat.c keeps for
the same purpose; `none` is `NULL`. -/
def chatty_utils_jabber_id_strip (name : CStr) : Option CStr :=
  (g_strsplit name SLASH).head?

/-- The rows of the table of `test_utils_jabber_id_strip` of tests/utils.c:
username and expected result. -/
def jabber_id_strip_rows : List (String × String) :=
  [("test@example.com", "test@example.com"),
   ("test@example.com/aacc", "test@example.com"),
   ("test@example.com/", "test@example.com"),
   ("test@example", "test@example")]

/-! ## The phone number normaliser (chatty-utils.c and chatty-phone-utils.cpp) -/

/-- The byte of the plus sign, which starts a country prefix. -/
def PLUS : Nat := 43

/-- A decimal digit. -/
def is_digit (c : Nat) : Bool := decide (48 ≤ c) && decide (c ≤ 57)

/-- Formatting punctuation and spaces: '-', '(', ')' and ' '. -/
def is_formatting (c : Nat) : Bool := c == 45 || c == 40 || c == 41 || c == 32

/-- The characters of a number that can be parsed: digits, '+', and
formatting. -/
def is_number_char (c : Nat) : Bool := is_digit c || c == PLUS || is_formatting c

/-- The number without formatting punctuation and spaces. -/
def strip_formatting (number : CStr) : CStr := number.filter (fun c => ! is_formatting c)

/-- Whether a cleaned number carries a country prefix. -/
def carries_country_code (cleaned : CStr) : Bool := cleaned.head? == some PLUS

/-- The numbering data of the phone number library, which is not part of the
repository: the country calling code of a region (`none` for an unknown
region), whether a number with country prefix is a number of that country,
the minimum plausible length of a number, and the short numbers allowed in a
region. -/
structure Numbering where
  calling_code : CStr → Option CStr
  resolves : CStr → Bool
  min_length : Nat
  short_allowed : CStr → CStr → Bool

/-- Modelled from the spec: `chatty_utils_check_phonenumber (number, region)` of
chatty-utils.c, which is not among the sources, by the rules of the
specification. An input with a character outside digits, '+', '-', '(', ')'
and space, or without any character left after the formatting is stripped,
has no canonical form. A number that carries a country prefix is resolved
without the hint; a number below the minimum plausible length is returned as
it is, cleaned; any other number gets the country prefix of the region hint
when that gives a number of the country, and is returned cleaned when it
does not. -/
def chatty_utils_check_phonenumber (nb : Numbering) : Normalizer := fun number region =>
  if ¬ number.all is_number_char then none
  else
    let cleaned := strip_formatting number
    if cleaned = [] then none
    else if carries_country_code cleaned then some cleaned
    else if cleaned.length < nb.min_length then some cleaned
    else
      match nb.calling_code region with
      | none => some cleaned
      | some code =>
        if nb.resolves (PLUS :: code ++ cleaned) then some (PLUS :: code ++ cleaned)
        else some cleaned

/-- Modelled from the spec: `chatty_phone_utils_is_valid (number, region)` of
chatty-phone-utils.cpp, which is not among the sources, by the rules of the
specification: the validity that goes with the canonical form. A number with
country prefix is valid when it is a number of its country, whatever the
hint; a number below the minimum plausible length when the region allows it
as a short number; any other number when the country prefix of the region
makes it a number of that country. -/
def chatty_phone_utils_is_valid (nb : Numbering) (number region : CStr) : Bool :=
  if ¬ number.all is_number_char then false
  else
    let cleaned := strip_formatting number
    if cleaned = [] then false
    else if carries_country_code cleaned then nb.resolves cleaned
    else if cleaned.length < nb.min_length then nb.short_allowed region cleaned
    else
      match nb.calling_code region with
      | none => false
      | some code => nb.resolves (PLUS :: code ++ cleaned)

/-- Numbering data that knows the regions and the numbers of the tables of
tests/utils.c. -/
def example_numbering : Numbering :=
  { calling_code := fun region =>
      if region = c_str "IN" then some (c_str "91")
      else if region = c_str "US" then some (c_str "1")
      else if region = c_str "DE" then some (c_str "49")
      else if region = c_str "PL" then some (c_str "48")
      else if region = c_str "GB" then some (c_str "44")
      else none,
    resolves := fun number =>
      number = c_str "+919633123456" || number = c_str "+12133219876" ||
      number = c_str "+499633123456" || number = c_str "+442087599036",
    min_length := 8,
    short_allowed := fun region number =>
      region = c_str "US" && number = c_str "911" || number = c_str "112" }

/-! ## Order of C strings -/

theorem strcmp_swap (a : CStr) : ∀ b : CStr, strcmp b a = - strcmp a b := by
  induction a with
  | nil => intro b; cases b <;> simp [strcmp]; omega
  | cons x xs ih =>
    intro b
    cases b with
    | nil => simp [strcmp]; omega
    | cons y ys =>
      by_cases h : x = y
      · subst h; simp [strcmp, ih ys]
      · have h2 : ¬ y = x := fun e => h e.symm
        simp [strcmp, h, h2]

theorem strcmp_eq_zero_iff (a : CStr) : ∀ b : CStr, strcmp a b = 0 ↔ a = b := by
  induction a with
  | nil => intro b; cases b <;> simp [strcmp]; omega
  | cons x xs ih =>
    intro b
    cases b with
    | nil => simp [strcmp]; omega
    | cons y ys =>
      by_cases h : x = y
      · subst h; simp [strcmp, ih ys]
      · simp [strcmp, h]; omega

theorem strcmp_trans (a : CStr) : ∀ b c : CStr, strcmp a b ≤ 0 → strcmp b c ≤ 0 → strcmp a c ≤ 0 := by
  induction a with
  | nil => intro b c _ _; cases c <;> simp [strcmp]; omega
  | cons x xs ih =>
    intro b c hab hbc
    cases b with
    | nil => simp [strcmp] at hab; omega
    | cons y ys =>
      cases c with
      | nil => simp [strcmp] at hbc; omega
      | cons z zs =>
        by_cases hxy : x = y
        · subst hxy
          by_cases hxz : x = z
          · subst hxz
            simp [strcmp] at hab hbc ⊢
            exact ih ys zs hab hbc
          · simp [strcmp, hxz] at hab hbc ⊢
            exact hbc
        · by_cases hyz : y = z
          · subst hyz
            simp [strcmp, hxy] at hab hbc ⊢
            exact hab
          · simp [strcmp, hxy, hyz] at hab hbc
            have hxz : ¬ x = z := by omega
            simp [strcmp, hxz]
            omega

theorem g_strcmp0_eq_zero_iff (a b : Option CStr) : g_strcmp0 a b = 0 ↔ a = b := by
  cases a <;> cases b <;> simp [g_strcmp0, strcmp_eq_zero_iff]

theorem getD_append_length {α : Type} (pre : List α) (x : α) (t : List α) (d : α) :
    (pre ++ x :: t).getD pre.length d = x := by
  induction pre with
  | nil => rfl
  | cons a as ih => simpa [List.getD_cons_succ] using ih

theorem remove_duplicates_loop_eq (fuel : Nat) :
    ∀ pre rest : List (Option CStr), rest.length ≤ fuel →
      remove_duplicates_loop fuel (pre ++ rest) pre.length = pre ++ skip_dedup rest := by
  induction fuel with
  | zero =>
    intro pre rest h
    have : rest = [] := List.length_eq_zero.mp (by omega)
    subst this
    simp [remove_duplicates_loop, skip_dedup]
  | succ n ih =>
    intro pre rest h
    match rest, h with
    | [], _ => simp [remove_duplicates_loop, skip_dedup]
    | [x], _ => simp [remove_duplicates_loop, skip_dedup]
    | x :: y :: r, h =>
      have hlen : pre.length < (pre ++ x :: y :: r).length - 1 := by simp
      have hx : (pre ++ x :: y :: r).getD pre.length none = x := getD_append_length pre x _ none
      have hy : (pre ++ x :: y :: r).getD (pre.length + 1) none = y := by
        have : pre ++ x :: y :: r = (pre ++ [x]) ++ y :: r := by simp
        rw [this]
        have h2 : pre.length + 1 = (pre ++ [x]).length := by simp
        rw [h2]
        exact getD_append_length (pre ++ [x]) y r none
      rw [remove_duplicates_loop, if_pos hlen, hx, hy]
      by_cases e : x = y
      · subst e
        rw [if_pos ((g_strcmp0_eq_zero_iff _ _).mpr rfl)]
        have he : g_ptr_array_remove_index (pre ++ x :: x :: r) pre.length = (pre ++ [x]) ++ r := by
          simp [g_ptr_array_remove_index, List.eraseIdx_append_of_length_le]
        have hl : pre.length + 1 = (pre ++ [x]).length := by simp
        rw [he, hl, ih (pre ++ [x]) r (by simp at h; omega)]
        simp [skip_dedup]
      · rw [if_neg (fun h0 => e ((g_strcmp0_eq_zero_iff _ _).mp h0))]
        have he : pre ++ x :: y :: r = (pre ++ [x]) ++ y :: r := by simp
        have hl : pre.length + 1 = (pre ++ [x]).length := by simp
        rw [he, hl, ih (pre ++ [x]) (y :: r) (by simp at h ⊢; omega)]
        simp [skip_dedup, e]


/-! ## The sorted key of a recipient list -/

/-- The duplicate scan ends by its own loop condition: every bound from the
length of the array on gives the same array. -/
theorem remove_duplicates_loop_fuel (arr : List (Option CStr)) (fuel : Nat)
    (h : arr.length ≤ fuel) :
    remove_duplicates_loop fuel arr 0 = remove_duplicates_loop arr.length arr 0 := by
  have h1 := remove_duplicates_loop_eq fuel [] arr h
  have h2 := remove_duplicates_loop_eq arr.length [] arr (le_refl _)
  simp only [List.nil_append, List.length_nil] at h1 h2
  rw [h1, h2]

theorem sort_strv_le_total (a b : CStr) : sort_strv a b ≤ 0 ∨ sort_strv b a ≤ 0 := by
  have h := strcmp_swap a b
  simp only [sort_strv, g_strcmp0]
  omega

theorem sort_strv_le_antisymm (a b : CStr) (h1 : sort_strv a b ≤ 0) (h2 : sort_strv b a ≤ 0) :
    a = b := by
  have h := strcmp_swap a b
  simp only [sort_strv, g_strcmp0] at h1 h2
  exact (strcmp_eq_zero_iff a b).mp (by omega)

instance sort_strv_isTotal : IsTotal CStr (fun a b => sort_strv a b ≤ 0) :=
  ⟨sort_strv_le_total⟩

instance sort_strv_isTrans : IsTrans CStr (fun a b => sort_strv a b ≤ 0) :=
  ⟨fun a b c h1 h2 => strcmp_trans a b c h1 h2⟩

instance sort_strv_isAntisymm : IsAntisymm CStr (fun a b => sort_strv a b ≤ 0) :=
  ⟨sort_strv_le_antisymm⟩

/-- Whatever algorithm `g_ptr_array_sort` runs, its result is determined: a
rearrangement of the array that is in `sort_strv` order is the sorted array. -/
theorem g_ptr_array_sort_unique (arr out : List CStr) (hp : out.Perm arr)
    (hs : out.Sorted (fun a b => sort_strv a b ≤ 0)) : out = g_ptr_array_sort sort_strv arr :=
  List.eq_of_perm_of_sorted (hp.trans (List.perm_insertionSort _ arr).symm) hs
    (List.sorted_insertionSort _ arr)

theorem g_ptr_array_sort_perm (arr : List CStr) : (g_ptr_array_sort sort_strv arr).Perm arr :=
  List.perm_insertionSort _ arr

theorem g_ptr_array_sort_congr (a b : List CStr) (h : a.Perm b) :
    g_ptr_array_sort sort_strv a = g_ptr_array_sort sort_strv b :=
  g_ptr_array_sort_unique b _ ((g_ptr_array_sort_perm a).trans h)
    (List.sorted_insertionSort _ a)

theorem skip_dedup_map_some (l : List CStr) :
    skip_dedup (l.map some ++ [none]) = (skip_dedup l).map some ++ [none] := by
  induction l using skip_dedup.induct with
  | case1 => rfl
  | case2 x => simp [skip_dedup]
  | case3 x rest ih => simp [skip_dedup, ih]
  | case4 x y rest hne ih =>
    have ih2 : skip_dedup (some y :: (List.map some rest ++ [none]))
        = List.map some (skip_dedup (y :: rest)) ++ [none] := by simpa using ih
    simp [skip_dedup, hne, ih2]

theorem strv_of_pdata_map_some (l : List CStr) : strv_of_pdata (l.map some ++ [none]) = l := by
  induction l with
  | nil => rfl
  | cons x xs ih => simp [strv_of_pdata, ih]

/-- The string `create_sorted_numbers` returns, in closed form: the entries are
normalised, sorted, passed through the duplicate scan and joined by commas. -/
theorem create_sorted_numbers_fst (check : Normalizer) (cc numbers : CStr)
    (members : Option (List ChattyMmBuddy)) :
    (create_sorted_numbers check cc numbers members).1 =
      g_strjoinv [COMMA] (skip_dedup (g_ptr_array_sort sort_strv
        ((g_strsplit numbers COMMA).map (canonical_number check cc)))) := by
  simp only [create_sorted_numbers]
  have h := remove_duplicates_loop_eq
    ((g_ptr_array_sort sort_strv ((g_strsplit numbers COMMA).map
      (canonical_number check cc))).map some ++ [none]).length [] _ (le_refl _)
  simp only [List.nil_append, List.length_nil] at h
  rw [h, skip_dedup_map_some, strv_of_pdata_map_some]

theorem mem_skip_dedup {α : Type} [DecidableEq α] (a : α) (l : List α) :
    a ∈ skip_dedup l ↔ a ∈ l := by
  induction l using skip_dedup.induct with
  | case1 => simp [skip_dedup]
  | case2 x => simp [skip_dedup]
  | case3 x rest ih => simp [skip_dedup, ih]
  | case4 x y rest hne ih => simp [skip_dedup, hne, ih]

theorem split_on_of_not_mem (d : Nat) (s : CStr) (h : d ∉ s) : split_on d s = [s] := by
  induction s with
  | nil => rfl
  | cons c cs ih =>
    have hc : ¬ c = d := fun e => h (by simp [e])
    have hcs : d ∉ cs := fun e => h (by simp [e])
    simp [split_on, hc, ih hcs]

theorem split_on_append (d : Nat) (s rest : CStr) (h : d ∉ s) :
    split_on d (s ++ d :: rest) = s :: split_on d rest := by
  induction s with
  | nil => simp [split_on]
  | cons c cs ih =>
    have hc : ¬ c = d := fun e => h (by simp [e])
    have hcs : d ∉ cs := fun e => h (by simp [e])
    simp [split_on, hc, ih hcs]

/-- Splitting undoes joining for a non-empty vector whose strings hold no
delimiter. -/
theorem split_on_g_strjoinv (d : Nat) (l : List CStr) (hne : l ≠ [])
    (h : ∀ s ∈ l, d ∉ s) : split_on d (g_strjoinv [d] l) = l := by
  induction l with
  | nil => exact absurd rfl hne
  | cons s tl ih =>
    have hs : d ∉ s := h s (by simp)
    cases tl with
    | nil => simpa [g_strjoinv] using split_on_of_not_mem d s hs
    | cons t ts =>
      have ht : ∀ u ∈ t :: ts, d ∉ u := fun u hu => h u (List.mem_cons_of_mem _ hu)
      have e : g_strjoinv [d] (s :: t :: ts) = s ++ d :: g_strjoinv [d] (t :: ts) := by
        simp [g_strjoinv]
      rw [e, split_on_append d s _ hs, ih (by simp) ht]


theorem split_on_ne_nil (d : Nat) (s : CStr) : split_on d s ≠ [] := by
  induction s with
  | nil => simp [split_on]
  | cons c cs ih =>
    by_cases hc : c = d
    · simp [split_on, hc]
    · cases h : split_on d cs with
      | nil => exact absurd h ih
      | cons t ts => simp [split_on, hc, h]

theorem g_strsplit_eq_nil_iff (s : CStr) (d : Nat) : g_strsplit s d = [] ↔ s = [] := by
  unfold g_strsplit
  by_cases h : s = []
  · simp [h]
  · simp [h, split_on_ne_nil]

theorem skip_dedup_eq_nil_iff {α : Type} [DecidableEq α] (l : List α) :
    skip_dedup l = [] ↔ l = [] := by
  constructor
  · intro h
    cases l with
    | nil => rfl
    | cons x xs =>
      have : x ∈ skip_dedup (x :: xs) := (mem_skip_dedup x _).mpr (by simp)
      rw [h] at this
      exact absurd this (List.not_mem_nil x)
  · intro h
    subst h
    rfl

theorem find_chat_some_name (check : Normalizer) (cc : CStr) (self : ChattyMmAccount)
    (r : Option CStr) (chat : ChattyMmChat)
    (h : chatty_mm_account_find_chat check cc self r = some chat) :
    ∃ numbers, r = some numbers ∧ numbers ≠ [] ∧ chat ∈ self.chat_list ∧
      chat.chat_name = some (create_sorted_numbers check cc numbers none).1 := by
  match r, h with
  | some (c :: cs), h =>
    simp only [chatty_mm_account_find_chat] at h
    refine ⟨c :: cs, rfl, by simp, List.mem_of_find?_eq_some h, ?_⟩
    have hp := List.find?_some h
    simpa [g_strcmp0_eq_zero_iff] using hp

theorem find_chat_none_name (check : Normalizer) (cc : CStr) (self : ChattyMmAccount)
    (numbers : CStr) (hne : numbers ≠ [])
    (h : chatty_mm_account_find_chat check cc self (some numbers) = none) :
    ∀ chat ∈ self.chat_list,
      chat.chat_name ≠ some (create_sorted_numbers check cc numbers none).1 := by
  match numbers, hne, h with
  | c :: cs, _, h =>
    simp only [chatty_mm_account_find_chat] at h
    intro chat hmem
    have hp := List.find?_eq_none.mp h chat hmem
    simpa [g_strcmp0_eq_zero_iff] using hp

/-- C1: `chatty_mm_account_start_chat` keeps chat names unique. In an account
whose chats have pairwise different names, starting a chat for a non-empty
recipient list leaves the names pairwise different, appends at most one chat
to `chat_list`, and returns a chat of the list whose name is the key
`create_sorted_numbers` computes for the recipient list. -/
theorem start_chat_keeps_names_unique (check : Normalizer) (cc : CStr)
    (self : ChattyMmAccount) (recipientlist : CStr) (hne : recipientlist ≠ [])
    (huniq : (self.chat_list.map ChattyMmChat.chat_name).Nodup) :
    ((chatty_mm_account_start_chat check cc self (some recipientlist)).2.chat_list.map
        ChattyMmChat.chat_name).Nodup ∧
    (chatty_mm_account_start_chat check cc self (some recipientlist)).2.chat_list.length
        ≤ self.chat_list.length + 1 ∧
    (∃ added, (chatty_mm_account_start_chat check cc self (some recipientlist)).2.chat_list
        = self.chat_list ++ added ∧ added.length ≤ 1) ∧
    ∃ chat, (chatty_mm_account_start_chat check cc self (some recipientlist)).1 = some chat ∧
      chat ∈ (chatty_mm_account_start_chat check cc self (some recipientlist)).2.chat_list ∧
      chat.chat_name = some (create_sorted_numbers check cc recipientlist none).1 := by
  match recipientlist, hne with
  | c :: cs, hne =>
    cases hf : chatty_mm_account_find_chat check cc self (some (c :: cs)) with
    | some chat =>
      obtain ⟨numbers, hr, _, hmem, hname⟩ := find_chat_some_name check cc self _ chat hf
      cases hr
      simp only [chatty_mm_account_start_chat, hf]
      exact ⟨huniq, by omega, ⟨[], by simp, by simp⟩, chat, rfl, hmem, hname⟩
    | none =>
      have hnone := find_chat_none_name check cc self (c :: cs) hne hf
      have hkey : (create_sorted_numbers check cc (c :: cs) (some [])).1
          = (create_sorted_numbers check cc (c :: cs) none).1 := rfl
      simp only [chatty_mm_account_start_chat, hf]
      generalize hchat : chatty_mm_chat_add_users
        (if ((create_sorted_numbers check cc (c :: cs) (some [])).2.getD []).length = 1
          then chatty_mm_chat_new (create_sorted_numbers check cc (c :: cs) (some [])).1
            ChattyProtocol.MMS_SMS true
          else chatty_mm_chat_new (create_sorted_numbers check cc (c :: cs) (some [])).1
            ChattyProtocol.MMS false)
        ((create_sorted_numbers check cc (c :: cs) (some [])).2.getD []) = chat
      have hname : chat.chat_name = some (create_sorted_numbers check cc (c :: cs) none).1 := by
        rw [← hchat, ← hkey]
        split_ifs <;> rfl
      refine ⟨?_, by simp, ⟨[chat], rfl, by simp⟩, chat, rfl, by simp, hname⟩
      rw [List.map_append, List.nodup_append]
      refine ⟨huniq, by simp, ?_⟩
      intro n hn1 hn2
      simp only [List.map_cons, List.map_nil, List.mem_singleton] at hn2
      obtain ⟨other, hmem, hother⟩ := List.mem_map.mp hn1
      exact hnone other hmem (by rw [hother, hn2, hname])

/-- Witness of C1: an account that already holds the chat of "112" is asked for
"911,112" under the normaliser of the test table. -/
theorem start_chat_keeps_names_unique_witness :
    (((chatty_mm_account_start_chat phone_table_check (c_str "US")
        ⟨[chatty_mm_chat_new (c_str "112") ChattyProtocol.MMS_SMS true]⟩
        (some (c_str "911,112"))).2.chat_list.map ChattyMmChat.chat_name)
      = [some (c_str "112"), some (c_str "112,911")]) ∧
    ((chatty_mm_account_start_chat phone_table_check (c_str "US")
        ⟨[chatty_mm_chat_new (c_str "112") ChattyProtocol.MMS_SMS true]⟩
        (some (c_str "911,112"))).2.chat_list.map ChattyMmChat.chat_name).Nodup :=
  ⟨by decide,
   (start_chat_keeps_names_unique phone_table_check (c_str "US")
      ⟨[chatty_mm_chat_new (c_str "112") ChattyProtocol.MMS_SMS true]⟩
      (c_str "911,112") (by decide) (by decide)).1⟩


/-- C2: the SMS/MMS identity key is order-independent. When the entries of
one recipient list are a permutation of the entries of another,
`create_sorted_numbers` returns the same string for both under the same
country code, and `chatty_mm_account_find_chat` finds the same chat. -/
theorem create_sorted_numbers_order_independent (check : Normalizer) (cc : CStr)
    (r1 r2 : CStr) (hperm : (g_strsplit r1 COMMA).Perm (g_strsplit r2 COMMA)) :
    (create_sorted_numbers check cc r1 none).1 = (create_sorted_numbers check cc r2 none).1 ∧
    ∀ self : ChattyMmAccount,
      chatty_mm_account_find_chat check cc self (some r1)
        = chatty_mm_account_find_chat check cc self (some r2) := by
  have hkey : (create_sorted_numbers check cc r1 none).1
      = (create_sorted_numbers check cc r2 none).1 := by
    rw [create_sorted_numbers_fst, create_sorted_numbers_fst,
      g_ptr_array_sort_congr _ _ (hperm.map (canonical_number check cc))]
  refine ⟨hkey, fun self => ?_⟩
  cases r1 with
  | nil =>
    have h2 : g_strsplit r2 COMMA = [] := by
      have : g_strsplit ([] : CStr) COMMA = [] := rfl
      rw [this] at hperm
      exact List.Perm.eq_nil hperm.symm
    have : r2 = [] := (g_strsplit_eq_nil_iff r2 COMMA).mp h2
    subst this
    rfl
  | cons c cs =>
    cases r2 with
    | nil =>
      have h1 : g_strsplit (c :: cs) COMMA = [] := by
        have : g_strsplit ([] : CStr) COMMA = [] := rfl
        rw [this] at hperm
        exact List.Perm.eq_nil hperm
      exact absurd ((g_strsplit_eq_nil_iff _ COMMA).mp h1) (by simp)
    | cons d ds =>
      simp only [chatty_mm_account_find_chat, hkey]

/-- Witness of C2: "911,112,+1 213 321 9876" and "+1 213 321 9876,911,112" have
the same key. -/
theorem create_sorted_numbers_order_independent_witness :
    (create_sorted_numbers phone_table_check (c_str "US")
        (c_str "911,112,+1 213 321 9876") none).1
      = (create_sorted_numbers phone_table_check (c_str "US")
        (c_str "+1 213 321 9876,911,112") none).1 :=
  (create_sorted_numbers_order_independent phone_table_check (c_str "US")
    (c_str "911,112,+1 213 321 9876") (c_str "+1 213 321 9876,911,112") (by decide)).1

/-- C3: the duplicate scan of `create_sorted_numbers` steps over the entry that
follows a removed one, so a number listed three times is left twice in the
key. For every normaliser the key of "112,112,112" is the canonical form of
"112" twice, and under the normaliser of the test table its entries are
"112", "112": not in strictly ascending order. -/
theorem create_sorted_numbers_keeps_third_duplicate :
    (∀ (check : Normalizer) (cc : CStr),
      (create_sorted_numbers check cc (c_str "112,112,112") none).1
        = canonical_number check cc (c_str "112") ++ [COMMA]
          ++ canonical_number check cc (c_str "112")) ∧
    g_strsplit (create_sorted_numbers phone_table_check (c_str "US")
        (c_str "112,112,112") none).1 COMMA = [c_str "112", c_str "112"] ∧
    strictly_ascending (g_strsplit (create_sorted_numbers phone_table_check (c_str "US")
        (c_str "112,112,112") none).1 COMMA) = false := by
  refine ⟨fun check cc => ?_, by decide, by decide⟩
  rw [create_sorted_numbers_fst]
  have hs : g_strsplit (c_str "112,112,112") COMMA = [c_str "112", c_str "112", c_str "112"] := by
    decide
  have hz : sort_strv (canonical_number check cc (c_str "112"))
      (canonical_number check cc (c_str "112")) ≤ 0 := by
    have := (strcmp_eq_zero_iff (canonical_number check cc (c_str "112")) _).mpr rfl
    simp only [sort_strv, g_strcmp0]
    omega
  rw [hs]
  simp [g_ptr_array_sort, List.insertionSort, List.orderedInsert, hz, skip_dedup, g_strjoinv]


/-- The entries of a key: the scanned, sorted canonical numbers. -/
theorem mem_key_entries (check : Normalizer) (cc r n : CStr) :
    n ∈ skip_dedup (g_ptr_array_sort sort_strv
        ((g_strsplit r COMMA).map (canonical_number check cc)))
      ↔ n ∈ (g_strsplit r COMMA).map (canonical_number check cc) := by
  rw [mem_skip_dedup]
  exact (g_ptr_array_sort_perm _).mem_iff

theorem key_entries_ne_nil (check : Normalizer) (cc r : CStr) (hne : r ≠ []) :
    skip_dedup (g_ptr_array_sort sort_strv
        ((g_strsplit r COMMA).map (canonical_number check cc))) ≠ [] := by
  intro h
  have h1 := (skip_dedup_eq_nil_iff _).mp h
  have h2 : (g_strsplit r COMMA).map (canonical_number check cc) = [] :=
    List.Perm.eq_nil ((g_ptr_array_sort_perm _).symm.trans (by rw [h1]))
  exact hne ((g_strsplit_eq_nil_iff r COMMA).mp (List.map_eq_nil_iff.mp h2))

/-- C4: identity-key equality requires set-equality of the members. For two
non-empty recipient lists whose canonical numbers hold no comma, equal keys
imply that the lists have the same canonical numbers; and
`chatty_mm_account_find_chat` never returns a chat whose name differs from
the key, whether or not one is an initial part or a substring of the other. -/
theorem key_equality_requires_same_members (check : Normalizer) (cc r1 r2 : CStr)
    (h1 : r1 ≠ []) (h2 : r2 ≠ [])
    (hc1 : ∀ e ∈ (g_strsplit r1 COMMA).map (canonical_number check cc), COMMA ∉ e)
    (hc2 : ∀ e ∈ (g_strsplit r2 COMMA).map (canonical_number check cc), COMMA ∉ e) :
    ((create_sorted_numbers check cc r1 none).1 = (create_sorted_numbers check cc r2 none).1 →
      ∀ n, n ∈ (g_strsplit r1 COMMA).map (canonical_number check cc)
        ↔ n ∈ (g_strsplit r2 COMMA).map (canonical_number check cc)) ∧
    (∀ (self : ChattyMmAccount) (chat : ChattyMmChat),
      chat.chat_name ≠ some (create_sorted_numbers check cc r1 none).1 →
      chatty_mm_account_find_chat check cc self (some r1) ≠ some chat) := by
  constructor
  · intro hkey n
    rw [create_sorted_numbers_fst, create_sorted_numbers_fst] at hkey
    have e1 := split_on_g_strjoinv COMMA _ (key_entries_ne_nil check cc r1 h1)
      (fun s hs => hc1 s ((mem_key_entries check cc r1 s).mp hs))
    have e2 := split_on_g_strjoinv COMMA _ (key_entries_ne_nil check cc r2 h2)
      (fun s hs => hc2 s ((mem_key_entries check cc r2 s).mp hs))
    rw [hkey, e2] at e1
    rw [← mem_key_entries check cc r1 n, ← mem_key_entries check cc r2 n, e1]
  · intro self chat hname hfind
    obtain ⟨numbers, hr, _, _, hn⟩ := find_chat_some_name check cc self _ chat hfind
    cases hr
    exact hname hn

/-- Witness of C4: "911,112" and "112,911" have the same key and the same
canonical numbers, and the chat named "112,911" is not returned for "112",
an initial part of its name. -/
theorem key_equality_requires_same_members_witness :
    (∀ n, n ∈ (g_strsplit (c_str "911,112") COMMA).map
          (canonical_number phone_table_check (c_str "US"))
        ↔ n ∈ (g_strsplit (c_str "112,911") COMMA).map
          (canonical_number phone_table_check (c_str "US"))) ∧
    chatty_mm_account_find_chat phone_table_check (c_str "US")
        ⟨[chatty_mm_chat_new (c_str "112,911") ChattyProtocol.MMS false]⟩ (some (c_str "112"))
      ≠ some (chatty_mm_chat_new (c_str "112,911") ChattyProtocol.MMS false) :=
  ⟨(key_equality_requires_same_members phone_table_check (c_str "US")
      (c_str "911,112") (c_str "112,911") (by decide) (by decide) (by decide) (by decide)).1
      (by decide),
   (key_equality_requires_same_members phone_table_check (c_str "US")
      (c_str "112") (c_str "112") (by decide) (by decide) (by decide) (by decide)).2
      ⟨[chatty_mm_chat_new (c_str "112,911") ChattyProtocol.MMS false]⟩
      (chatty_mm_chat_new (c_str "112,911") ChattyProtocol.MMS false) (by decide)⟩

/-- C5: `chatty_mm_account_start_chat` counts the entries of the recipient
list, not the canonical members. For every normaliser, on an account without
chats, "112,112" creates a chat with the key of "112" but with protocol MMS,
the 1:1 flag unset and the member listed twice, while "112" creates a 1:1
SMS/MMS chat with the same key. -/
theorem start_chat_counts_repeated_recipient (check : Normalizer) (cc : CStr) :
    (chatty_mm_account_start_chat check cc ⟨[]⟩ (some (c_str "112,112"))).1
      = some { chat_name := some (canonical_number check cc (c_str "112")),
               protocol := ChattyProtocol.MMS, is_im := false,
               users := [⟨canonical_number check cc (c_str "112"),
                          canonical_number check cc (c_str "112")⟩,
                         ⟨canonical_number check cc (c_str "112"),
                          canonical_number check cc (c_str "112")⟩] } ∧
    (chatty_mm_account_start_chat check cc ⟨[]⟩ (some (c_str "112"))).1
      = some { chat_name := some (canonical_number check cc (c_str "112")),
               protocol := ChattyProtocol.MMS_SMS, is_im := true,
               users := [⟨canonical_number check cc (c_str "112"),
                          canonical_number check cc (c_str "112")⟩] } := by
  have hz : sort_strv (canonical_number check cc (c_str "112"))
      (canonical_number check cc (c_str "112")) ≤ 0 := by
    have := (strcmp_eq_zero_iff (canonical_number check cc (c_str "112")) _).mpr rfl
    simp only [sort_strv, g_strcmp0]
    omega
  have hs2 : g_strsplit (c_str "112,112") COMMA = [c_str "112", c_str "112"] := by decide
  have hs1 : g_strsplit (c_str "112") COMMA = [c_str "112"] := by decide
  have k2 := create_sorted_numbers_fst check cc (c_str "112,112") (some [])
  have k1 := create_sorted_numbers_fst check cc (c_str "112") (some [])
  rw [hs2] at k2
  rw [hs1] at k1
  simp [g_ptr_array_sort, List.insertionSort, List.orderedInsert, hz, skip_dedup,
    g_strjoinv] at k1 k2
  have m2 : (create_sorted_numbers check cc (c_str "112,112") (some [])).2
      = some [⟨canonical_number check cc (c_str "112"), canonical_number check cc (c_str "112")⟩,
              ⟨canonical_number check cc (c_str "112"), canonical_number check cc (c_str "112")⟩] := by
    simp [create_sorted_numbers, hs2]
  have m1 : (create_sorted_numbers check cc (c_str "112") (some [])).2
      = some [⟨canonical_number check cc (c_str "112"), canonical_number check cc (c_str "112")⟩] := by
    simp [create_sorted_numbers, hs1]
  have c2 : c_str "112,112" = 49 :: c_str "12,112" := by decide
  have c1 : c_str "112" = 49 :: c_str "12" := by decide
  constructor
  · rw [c2] at k2 m2 ⊢
    simp [chatty_mm_account_start_chat, chatty_mm_account_find_chat, k2, m2,
      chatty_mm_chat_new, chatty_mm_chat_add_users]
  · rw [c1] at k1 m1 ⊢
    simp [chatty_mm_account_start_chat, chatty_mm_account_find_chat, k1, m1,
      chatty_mm_chat_new, chatty_mm_chat_add_users]


/-! ## Identity of libpurple chats -/

/-- The checks of `chatty_pp_chat_are_same` that come before the node lookup:
when one of them holds the result is TRUE and no chat is changed. -/
theorem are_same_early (purple : Purple) (heap : ChatHeap) (a b : Ptr)
    (h : a = b ∨
      ((heap a).account ≠ NULL ∧ (heap a).buddy ≠ NULL ∧
        (heap a).account = (heap b).account ∧ (heap a).buddy = (heap b).buddy) ∨
      ((heap a).conv ≠ NULL ∧ (heap a).conv = (heap b).conv) ∨
      ((heap a).pp_chat ≠ NULL ∧ (heap a).pp_chat = (heap b).pp_chat)) :
    chatty_pp_chat_are_same purple heap a b = (true, heap) := by
  unfold chatty_pp_chat_are_same
  by_cases h1 : a = b
  · rw [if_pos h1]
  · rw [if_neg h1]
    by_cases h2 : (heap a).account ≠ NULL ∧ (heap a).buddy ≠ NULL ∧
        (heap a).account = (heap b).account ∧ (heap a).buddy = (heap b).buddy
    · rw [if_pos h2]
    · rw [if_neg h2]
      by_cases h3 : (heap a).conv ≠ NULL ∧ (heap a).conv = (heap b).conv
      · rw [if_pos h3]
      · rw [if_neg h3]
        by_cases h4 : (heap a).pp_chat ≠ NULL ∧ (heap a).pp_chat = (heap b).pp_chat
        · rw [if_pos h4]
        · rcases h with h | h | h | h
          · exact absurd h h1
          · exact absurd h h2
          · exact absurd h h3
          · exact absurd h h4

/-- C6: two chats that hold the same non-null live conversation are the same
chat for `chatty_pp_chat_are_same`, whatever their account, buddy, buddy-list
chat and users are; the call changes neither chat. -/
theorem are_same_of_same_conv (purple : Purple) (heap : ChatHeap) (a b : Ptr)
    (hconv : (heap a).conv ≠ NULL) (hsame : (heap a).conv = (heap b).conv) :
    (chatty_pp_chat_are_same purple heap a b).1 = true ∧
    (chatty_pp_chat_are_same purple heap a b).2 = heap := by
  rw [are_same_early purple heap a b (Or.inr (Or.inr (Or.inl ⟨hconv, hsame⟩)))]
  exact ⟨rfl, rfl⟩

/-- Witness of C6: the chats at 1 and 2 share the conversation 30 only. -/
theorem are_same_of_same_conv_witness :
    (example_same_conv 1).account ≠ (example_same_conv 2).account ∧
    (example_same_conv 1).chat_users ≠ (example_same_conv 2).chat_users ∧
    (chatty_pp_chat_are_same example_purple example_same_conv 1 2).1 = true :=
  ⟨by decide, by decide,
   (are_same_of_same_conv example_purple example_same_conv 1 2 (by decide) (by decide)).1⟩

/-- Counterexample to C7 as stated: the chat at 1 was created from a
conversation with the buddy 20 and lost its conversation, the chat at 2 was
created for the buddy 20; both hold the same non-null buddy, and
`chatty_pp_chat_are_same` returns FALSE in both directions, because the chat
at 1 has no account. -/
theorem are_same_same_buddy_counterexample :
    (example_same_buddy 1).buddy ≠ NULL ∧
    (example_same_buddy 1).buddy = (example_same_buddy 2).buddy ∧
    (chatty_pp_chat_are_same example_purple example_same_buddy 1 2).1 = false ∧
    (chatty_pp_chat_are_same example_purple example_same_buddy 2 1).1 = false := by
  decide

/-- C7, amended: two chats that hold the same non-null `PurpleChat` in their
`pp_chat` field, or the same non-null `PurpleBuddy` in their `buddy` field
together with the same non-null account in their `account` field, are the
same chat for `chatty_pp_chat_are_same`. -/
theorem are_same_of_same_contact (purple : Purple) (heap : ChatHeap) (a b : Ptr)
    (h : ((heap a).pp_chat ≠ NULL ∧ (heap a).pp_chat = (heap b).pp_chat) ∨
         ((heap a).buddy ≠ NULL ∧ (heap a).buddy = (heap b).buddy ∧
          (heap a).account ≠ NULL ∧ (heap a).account = (heap b).account)) :
    (chatty_pp_chat_are_same purple heap a b).1 = true ∧
    (chatty_pp_chat_are_same purple heap a b).2 = heap := by
  have e : chatty_pp_chat_are_same purple heap a b = (true, heap) := by
    rcases h with h | ⟨hb1, hb2, ha1, ha2⟩
    · exact are_same_early purple heap a b (Or.inr (Or.inr (Or.inr h)))
    · exact are_same_early purple heap a b (Or.inr (Or.inl ⟨ha1, hb1, ha2, hb2⟩))
  rw [e]
  exact ⟨rfl, rfl⟩

/-- Witness of C7, amended: two chats created for the buddy 20 of account 10. -/
theorem are_same_of_same_contact_witness :
    (chatty_pp_chat_are_same example_purple example_same_account_buddy 1 2).1 = true :=
  (are_same_of_same_contact example_purple example_same_account_buddy 1 2
    (Or.inr (by decide))).1

/-- C8: a chat created from a buddy-add event and a chat created from a live
conversation reconcile. When `a` is `chatty_pp_chat_new_im_chat (account,
buddy)` and `b` is `chatty_pp_chat_new_purple_conv (conv)` for a conversation
of the same account whose buddy-list node is that buddy,
`chatty_pp_chat_are_same` returns TRUE for (a, b) and for (b, a), and also
for (b, a) after the call for (a, b). -/
theorem are_same_buddy_chat_and_conv_chat (purple : Purple) (heap : ChatHeap) (a b : Ptr)
    (account buddy conv : Ptr) (enc_a enc_b : Bool) (chat_a : ChattyPpChat)
    (hconv : conv ≠ NULL)
    (hacc : purple.conv_account conv = account)
    (hnode : purple.conv_blist_node conv = buddy)
    (hbuddy : purple.blist_node_type buddy = PurpleBlistNodeType.BUDDY_NODE)
    (hnew : chatty_pp_chat_new_im_chat account buddy enc_a = some chat_a)
    (ha : heap a = chat_a)
    (hb : heap b = chatty_pp_chat_new_purple_conv purple conv enc_b) :
    (chatty_pp_chat_are_same purple heap a b).1 = true ∧
    (chatty_pp_chat_are_same purple heap b a).1 = true ∧
    (chatty_pp_chat_are_same purple (chatty_pp_chat_are_same purple heap a b).2 b a).1 = true := by
  have hacc0 : account ≠ NULL := by
    intro h0
    simp [chatty_pp_chat_new_im_chat, h0] at hnew
  have hbud0 : buddy ≠ NULL := by
    intro h0
    simp [chatty_pp_chat_new_im_chat, h0] at hnew
  have hca : chat_a = { chatty_pp_chat_init with
      account := account, supports_encryption := enc_a, buddy := buddy } := by
    simp [chatty_pp_chat_new_im_chat, hacc0, hbud0, chatty_pp_chat_set_purple_buddy] at hnew
    exact hnew.symm
  have hn : ¬ conv = 0 := hconv
  have hn1 : ¬ account = 0 := hacc0
  have hn2 : ¬ buddy = 0 := hbud0
  have hcb : chatty_pp_chat_new_purple_conv purple conv enc_b = { chatty_pp_chat_init with
      supports_encryption := enc_b, conv := conv, buddy := buddy } := by
    simp [chatty_pp_chat_new_purple_conv, chatty_pp_chat_set_purple_conv, hn, hn2, hnode,
      hbuddy, chatty_pp_chat_init, NULL, chatty_pp_chat_set_purple_buddy]
  rw [hca] at ha
  rw [hcb] at hb
  by_cases hab : a = b
  · subst hab
    simp [chatty_pp_chat_are_same]
  · have hba : ¬ b = a := fun e => hab e.symm
    refine ⟨?_, ?_, ?_⟩ <;>
      simp [chatty_pp_chat_are_same, chatty_pp_chat_match_purple_conv, ha, hb, hab, hba,
        chatty_pp_chat_init, NULL, hn, hn1, hn2, hacc, hnode, Function.update]

/-- Witness of C8: the buddy 20 of account 10 and the conversation 30. -/
theorem are_same_buddy_chat_and_conv_chat_witness :
    (chatty_pp_chat_are_same example_purple example_reconcile 1 2).1 = true ∧
    (chatty_pp_chat_are_same example_purple example_reconcile 2 1).1 = true ∧
    (chatty_pp_chat_are_same example_purple
      (chatty_pp_chat_are_same example_purple example_reconcile 1 2).2 2 1).1 = true :=
  are_same_buddy_chat_and_conv_chat example_purple example_reconcile 1 2 10 20 30 false false
    ((chatty_pp_chat_new_im_chat 10 20 false).getD chatty_pp_chat_init)
    (by decide) (by decide) (by decide) (by decide) (by decide) (by decide) (by decide)


/-! ## Message lookup by id -/

theorem g_str_equal_iff (a b : CStr) : g_str_equal a b = true ↔ a = b := by
  simp [g_str_equal, strcmp_eq_zero_iff]

theorem find_message_loop_append (store tail : List ChattyMessage) (id : CStr) :
    ∀ i, i ≤ store.length →
      find_message_loop (store ++ tail) id i = find_message_loop store id i := by
  intro i
  induction i with
  | zero => intro _; rfl
  | succ n ih =>
    intro h
    have hlt : n < store.length := by omega
    simp only [find_message_loop, List.getElem?_append_left hlt, ih (by omega)]

theorem find_message_loop_eq (id : CStr) (store : List ChattyMessage) :
    find_message_loop store id store.length = find_newest_first id store.reverse := by
  induction store using List.reverseRecOn with
  | nil => rfl
  | append_singleton older message ih =>
    have hlen : (older ++ [message]).length = older.length + 1 := by simp
    rw [hlen, List.reverse_append]
    simp only [find_message_loop, List.getElem?_concat_length, List.reverse_singleton,
      List.singleton_append, find_newest_first]
    rw [find_message_loop_append older [message] id older.length (le_refl _), ih]
    simp

theorem find_newest_first_eq (id : CStr) (l : List ChattyMessage) :
    find_newest_first id l
      = (l.takeWhile (fun m => m.id.isSome)).find? (fun m => decide (m.id = some id)) := by
  induction l with
  | nil => rfl
  | cons message older ih =>
    cases hid : message.id with
    | none => simp [find_newest_first, hid, List.takeWhile]
    | some message_id =>
      by_cases he : id = message_id
      · subst he
        simp [find_newest_first, hid, List.takeWhile, (g_str_equal_iff id id).mpr rfl]
      · have hne : g_str_equal id message_id = false := by
          cases hg : g_str_equal id message_id with
          | false => rfl
          | true => exact absurd ((g_str_equal_iff _ _).mp hg) he
        have hne2 : ¬ message_id = id := fun e => he e.symm
        simp [find_newest_first, hid, List.takeWhile, hne, ih, hne2]

/-- The function `chatty_pp_chat_find_message_with_id` in closed form. -/
theorem find_message_with_id_eq (self : ChattyPpChat) (id : CStr) :
    chatty_pp_chat_find_message_with_id self (some id)
      = most_recent_with_id (after_last_idless self.message_store) id := by
  simp only [chatty_pp_chat_find_message_with_id, most_recent_with_id, after_last_idless,
    List.reverse_reverse]
  rw [← find_newest_first_eq, ← find_message_loop_eq]
  by_cases h : self.message_store.length = 0
  · have : self.message_store = [] := List.length_eq_zero.mp h
    simp [this, find_message_loop]
  · simp [h]

/-- The messages after the last id-less message: when the message `x` has no id
and every message after it has one, they are the messages after `x`. -/
theorem after_last_idless_append (older newer : List ChattyMessage) (x : ChattyMessage)
    (hx : x.id = none) (hnewer : ∀ m ∈ newer, m.id.isSome = true) :
    after_last_idless (older ++ x :: newer) = newer := by
  have e : (older ++ x :: newer).reverse = newer.reverse ++ x :: older.reverse := by simp
  have hx2 : (fun m : ChattyMessage => m.id.isSome) x = false := by simp [hx]
  unfold after_last_idless
  rw [e, List.takeWhile_append_of_pos (fun m hm => hnewer m (List.mem_reverse.mp hm))]
  simp [List.takeWhile, hx]

/-- When every message has an id, all messages come after the last id-less
message. -/
theorem after_last_idless_all (store : List ChattyMessage)
    (h : ∀ m ∈ store, m.id.isSome = true) : after_last_idless store = store := by
  unfold after_last_idless
  rw [List.takeWhile_eq_self_iff.mpr (fun m hm => h m (List.mem_reverse.mp hm))]
  simp

theorem after_last_idless_drop (older newer : List ChattyMessage) (x : ChattyMessage)
    (hx : x.id = none) : after_last_idless (older ++ x :: newer) = after_last_idless newer := by
  have e : (older ++ x :: newer).reverse = newer.reverse ++ x :: older.reverse := by simp
  have key : ∀ l : List ChattyMessage,
      (l ++ x :: older.reverse).takeWhile (fun m => m.id.isSome)
        = l.takeWhile (fun m => m.id.isSome) := by
    intro l
    induction l with
    | nil => simp [List.takeWhile, hx]
    | cons y ys ih =>
      cases hy : y.id.isSome with
      | false => simp [List.takeWhile, hy]
      | true => simp [List.takeWhile, hy, ih]
  unfold after_last_idless
  rw [e, key]

theorem mem_after_last_idless (store : List ChattyMessage) (m : ChattyMessage)
    (h : m ∈ after_last_idless store) : m ∈ store ∧ m.id.isSome = true := by
  unfold after_last_idless at h
  rw [List.mem_reverse] at h
  refine ⟨List.mem_reverse.mp ((List.takeWhile_sublist _).subset h), ?_⟩
  exact @List.mem_takeWhile_imp ChattyMessage (fun x => x.id.isSome) store.reverse m h

/-- C9: a message appended with a non-null id is found by that id. After
`chatty_pp_chat_append_message (chat, m)`,
`chatty_pp_chat_find_message_with_id (chat, id of m)` returns `m`, whatever
messages the chat held before. -/
theorem find_appended_message (self : ChattyPpChat) (m : ChattyMessage) (id : CStr)
    (hid : m.id = some id) :
    chatty_pp_chat_find_message_with_id (chatty_pp_chat_append_message self m).1 (some id)
      = some m := by
  simp [chatty_pp_chat_find_message_with_id, chatty_pp_chat_append_message, find_message_loop,
    hid, (g_str_equal_iff id id).mpr rfl]

/-- Witness of C9: a message with the id "a" appended to a chat that already
holds an older message with the id "a". -/
theorem find_appended_message_witness :
    chatty_pp_chat_find_message_with_id
        (chatty_pp_chat_append_message example_messages
          { addr := 4, id := some (c_str "a"), text := c_str "hi" }).1 (some (c_str "a"))
      = some { addr := 4, id := some (c_str "a"), text := c_str "hi" } :=
  find_appended_message example_messages
    { addr := 4, id := some (c_str "a"), text := c_str "hi" } (c_str "a") rfl

/-- C10: `chatty_pp_chat_find_message_with_id` searches from the newest message
and stops at the first message without an id. For every message list and id
it returns the most recent message with that id among the messages after the
last id-less message, and NULL when there is none; a returned message has
the id asked for; and when the list is `older`, an id-less message, `newer`,
the result is the one for `newer` alone, so no message of `older` is found
through its position in `older`. -/
theorem find_message_with_id_stops_at_idless (self : ChattyPpChat) (id : CStr) :
    chatty_pp_chat_find_message_with_id self (some id)
      = most_recent_with_id (after_last_idless self.message_store) id ∧
    (∀ m, chatty_pp_chat_find_message_with_id self (some id) = some m →
      m.id = some id ∧ m ∈ after_last_idless self.message_store) ∧
    (∀ (older newer : List ChattyMessage) (x : ChattyMessage),
      self.message_store = older ++ x :: newer → x.id = none →
      chatty_pp_chat_find_message_with_id self (some id)
        = chatty_pp_chat_find_message_with_id { self with message_store := newer } (some id) ∧
      ∀ m, chatty_pp_chat_find_message_with_id self (some id) = some m → m ∈ newer) := by
  have hfound : ∀ (c : ChattyPpChat) (m : ChattyMessage),
      chatty_pp_chat_find_message_with_id c (some id) = some m →
      m.id = some id ∧ m ∈ after_last_idless c.message_store := by
    intro c m hm
    rw [find_message_with_id_eq, most_recent_with_id] at hm
    have h1 := List.find?_some hm
    have h2 := List.mem_of_find?_eq_some hm
    exact ⟨by simpa using h1, List.mem_reverse.mp h2⟩
  refine ⟨find_message_with_id_eq self id, hfound self, ?_⟩
  intro older newer x hstore hx
  have hdrop : chatty_pp_chat_find_message_with_id self (some id)
      = chatty_pp_chat_find_message_with_id { self with message_store := newer } (some id) := by
    rw [find_message_with_id_eq, find_message_with_id_eq, hstore,
      after_last_idless_drop older newer x hx]
  refine ⟨hdrop, fun m hm => ?_⟩
  rw [hdrop] at hm
  exact (mem_after_last_idless newer m (hfound _ m hm).2).1

/-- Witness of C10: in the chat with the ids "a", none, "b" the id "b" is found
and the id "a", which lies before the id-less message, is not. -/
theorem find_message_with_id_stops_at_idless_witness :
    chatty_pp_chat_find_message_with_id example_messages (some (c_str "b"))
      = some { addr := 3, id := some (c_str "b"), text := [] } ∧
    chatty_pp_chat_find_message_with_id example_messages (some (c_str "a")) = none ∧
    chatty_pp_chat_find_message_with_id example_messages (some (c_str "a"))
      = most_recent_with_id (after_last_idless example_messages.message_store) (c_str "a") :=
  ⟨by decide, by decide,
   (find_message_with_id_stops_at_idless example_messages (c_str "a")).1⟩


/-! ## History of a libpurple chat -/

/-- C11: `chatty_pp_chat_prepend_messages` preserves chronological order. For a
chat with message list L and a non-empty batch B the message list afterwards
is B followed by L, one "changed" signal is emitted and no other field
changes; for a `NULL` or empty batch the chat is unchanged and no signal is
emitted. -/
theorem prepend_messages_keeps_order (self : ChattyPpChat) (batch : List ChattyMessage) :
    (batch ≠ [] →
      chatty_pp_chat_prepend_messages self (some batch)
        = ({ self with message_store := batch ++ self.message_store }, ["changed"])) ∧
    chatty_pp_chat_prepend_messages self none = (self, []) ∧
    chatty_pp_chat_prepend_messages self (some []) = (self, []) := by
  refine ⟨fun h => ?_, rfl, rfl⟩
  cases batch with
  | nil => exact absurd rfl h
  | cons m ms => simp [chatty_pp_chat_prepend_messages, g_list_store_splice]

/-- Witness of C11: two older messages are put before the one message of the
chat. -/
theorem prepend_messages_keeps_order_witness :
    (chatty_pp_chat_prepend_messages example_conv_only (some example_batch)).1.message_store
      = example_batch ++ example_conv_only.message_store := by
  rw [(prepend_messages_keeps_order example_conv_only example_batch).1 (by decide)]

theorem real_past_messages_while_loading (self : ChattyPpChat) (count : Nat)
    (h : self.history_is_loading = true) :
    chatty_pp_chat_real_past_messages self count = (self, [], []) := by
  simp [chatty_pp_chat_real_past_messages, h]

theorem load_db_messages_cb_not_loading (purple : Purple) (self : ChattyPpChat)
    (messages : Option (List ChattyMessage)) (error : Option GError) :
    (pp_chat_load_db_messages_cb purple self messages error).1.history_is_loading = false := by
  unfold pp_chat_load_db_messages_cb
  cases messages with
  | none => rfl
  | some l =>
    cases l with
    | nil => rfl
    | cons m ms =>
      simp only []
      split_ifs <;> rfl

/-- The number of outstanding requests that goes with the flag
`history_is_loading`. -/
theorem history_step_invariant (s s1 : HistoryLoad) (e : HistoryEvent)
    (hinv : s.outstanding.length = if s.chat.history_is_loading then 1 else 0)
    (hstep : history_step s e = some s1) :
    s1.outstanding.length = if s1.chat.history_is_loading then 1 else 0 := by
  cases e with
  | load_past_messages count =>
    simp only [history_step, Option.some.injEq] at hstep
    subst hstep
    cases hl : s.chat.history_is_loading with
    | true =>
      rw [hl] at hinv
      simp [chatty_pp_chat_real_past_messages, hl, hinv]
    | false =>
      rw [hl] at hinv
      have h0 : s.outstanding = [] := List.length_eq_zero.mp (by simpa using hinv)
      simp [chatty_pp_chat_real_past_messages, hl, h0]
  | load_completed messages error =>
    cases ho : s.outstanding with
    | nil => simp [history_step, ho] at hstep
    | cons r rest =>
      simp only [history_step, ho, Option.some.injEq] at hstep
      subst hstep
      have hlen : rest.length = 0 := by
        rw [ho] at hinv
        cases hl : s.chat.history_is_loading with
        | true => rw [hl] at hinv; simpa using hinv
        | false => rw [hl] at hinv; simp at hinv
      simp [load_db_messages_cb_not_loading, hlen]

/-- C12: at most one history load is outstanding per chat. From a state in
which the number of outstanding requests goes with the flag
`history_is_loading` (none for a chat that is not loading), after every
sequence of `load_past_messages` calls and load completions the number of
requests sent and not yet completed is at most one, and is one exactly when
`history_is_loading` is set; a `load_past_messages` call made while the flag
is set sends no request, emits no signal and changes no field of the chat. -/
theorem at_most_one_history_load (init s : HistoryLoad) (events : List HistoryEvent)
    (hinit : init.outstanding.length = if init.chat.history_is_loading then 1 else 0)
    (hrun : history_run init events = some s) :
    s.outstanding.length ≤ 1 ∧
    (s.outstanding.length = 1 ↔ s.chat.history_is_loading = true) ∧
    (∀ count, s.chat.history_is_loading = true →
      chatty_pp_chat_real_past_messages s.chat count = (s.chat, [], []) ∧
      history_step s (HistoryEvent.load_past_messages count) = some s) := by
  have hinv : s.outstanding.length = if s.chat.history_is_loading then 1 else 0 := by
    induction events generalizing init with
    | nil =>
      simp only [history_run, Option.some.injEq] at hrun
      subst hrun
      exact hinit
    | cons e es ih =>
      cases hstep : history_step init e with
      | none => simp [history_run, hstep] at hrun
      | some s1 =>
        simp only [history_run, hstep] at hrun
        exact ih s1 (history_step_invariant init s1 e hinit hstep) hrun
  refine ⟨?_, ?_, ?_⟩
  · rw [hinv]
    split_ifs <;> omega
  · rw [hinv]
    cases s.chat.history_is_loading <;> simp
  · intro count hl
    have h1 := real_past_messages_while_loading s.chat count hl
    refine ⟨h1, ?_⟩
    simp [history_step, h1]

/-- Witness of C12: two calls, the completion and a third call leave one
request outstanding, the one of the third call; the second call sent none. -/
theorem at_most_one_history_load_witness :
    history_run example_history_start example_history_events = some example_history_end ∧
    example_history_end.outstanding.length = 1 ∧
    example_history_end.chat.history_is_loading = true :=
  ⟨rfl, rfl,
   (at_most_one_history_load example_history_start example_history_end example_history_events
      (by decide) rfl).2.1.mp rfl⟩


/-- C13: the completion of a history load inserts the batch only for a chat
whose buddy-list node has the setting "chatty-autojoin". For every chat and
non-empty batch, completed without error, the message list afterwards is the
batch followed by the previous list when `chatty_pp_chat_get_auto_join` is
TRUE and the previous list alone when it is FALSE. The chat created from the
conversation 31, which has neither buddy nor buddy-list chat, loses the batch
of two messages: its list is unchanged and no "changed" signal is emitted,
while `chatty_pp_chat_prepend_messages` inserts the same batch. -/
theorem load_completion_drops_batch_without_auto_join :
    (∀ (purple : Purple) (self : ChattyPpChat) (m : ChattyMessage) (ms : List ChattyMessage),
      (pp_chat_load_db_messages_cb purple self (some (m :: ms)) none).1.message_store
        = if chatty_pp_chat_get_auto_join purple self then (m :: ms) ++ self.message_store
          else self.message_store) ∧
    chatty_pp_chat_get_auto_join example_purple example_conv_only = false ∧
    (pp_chat_load_db_messages_cb example_purple example_conv_only
        (some example_batch) none).1.message_store = example_conv_only.message_store ∧
    (pp_chat_load_db_messages_cb example_purple example_conv_only
        (some example_batch) none).2.2 = ["notify::loading-history"] ∧
    (chatty_pp_chat_prepend_messages example_conv_only (some example_batch)).1.message_store
      = example_batch ++ example_conv_only.message_store := by
  refine ⟨?_, by decide, by decide, by decide, by decide⟩
  intro purple self m ms
  have hj : chatty_pp_chat_get_auto_join purple
      { self with history_is_loading := false, initial_history_loaded := true }
        = chatty_pp_chat_get_auto_join purple self := rfl
  simp only [pp_chat_load_db_messages_cb, Option.isNone_some, Bool.false_eq_true, false_and,
    and_false, if_false, hj]
  split_ifs <;> simp [g_list_store_splice]

/-- C14: a failed history load leaves the history unchanged. When the completion
reports an error, cancelled or not, and no messages, the message list and
libpurple's settings are as before, no "changed" signal is emitted,
`history_is_loading` is cleared, and the next `load_past_messages` call sends
a new request. -/
theorem failed_history_load_keeps_messages (purple : Purple) (self : ChattyPpChat)
    (error : GError) (count : Nat) :
    (pp_chat_load_db_messages_cb purple self none (some error)).1.message_store
      = self.message_store ∧
    (pp_chat_load_db_messages_cb purple self none (some error)).1.history_is_loading = false ∧
    (pp_chat_load_db_messages_cb purple self none (some error)).2.1 = purple ∧
    (pp_chat_load_db_messages_cb purple self none (some error)).2.2
      = ["notify::loading-history"] ∧
    (chatty_pp_chat_real_past_messages
        (pp_chat_load_db_messages_cb purple self none (some error)).1 count).2.2
      = [{ first := self.message_store.head?, count := count }] := by
  simp [pp_chat_load_db_messages_cb, chatty_pp_chat_real_past_messages]

/-- Witness of C14: a load of the chat of conversation 31 fails with a cancelled
operation; the list is unchanged and a new request can be sent. -/
theorem failed_history_load_keeps_messages_witness :
    (pp_chat_load_db_messages_cb example_purple
        { example_conv_only with history_is_loading := true } none
        (some { code := GErrorCode.G_IO_ERROR_CANCELLED, message := "cancelled" })).1.message_store
      = example_conv_only.message_store :=
  (failed_history_load_keeps_messages example_purple
    { example_conv_only with history_is_loading := true }
    { code := GErrorCode.G_IO_ERROR_CANCELLED, message := "cancelled" } 10).1

/-! ## Sending and inviting -/

/-- C15: sending on a chat without live conversation (`conv` is `NULL`) fails
with `G_IO_ERROR_NOT_CONNECTED`, calls no send function of libpurple and
leaves the chat, its message list included, unchanged. -/
theorem send_without_conv_not_connected (purple : Purple) (self : ChattyPpChat)
    (message : ChattyMessage) (h : self.conv = NULL) :
    chatty_pp_chat_send_message_async purple self message
      = (TaskResult.error { code := GErrorCode.G_IO_ERROR_NOT_CONNECTED,
                            message := "PurpleConversation not found" }, [], self) := by
  simp [chatty_pp_chat_send_message_async, h]

/-- Witness of C15: a message sent on the chat of `example_messages`, which has
no conversation. -/
theorem send_without_conv_not_connected_witness :
    (chatty_pp_chat_send_message_async example_purple example_messages
        { addr := 9, id := none, text := c_str "hello" }).2.2.message_store
      = example_messages.message_store := by
  rw [send_without_conv_not_connected example_purple example_messages _ (by decide)]

/-- C16: a backend failure while sending an SMS marks the message SendingFailed
and still persists it. When creating the SMS on the modem fails
(`sms_create_cb`) or sending it fails (`sms_send_cb`), the status of the
message becomes `CHATTY_STATUS_SENDING_FAILED`, the message with that status
is added to the history database for its chat, and the task returns the
error of the backend. -/
theorem sms_failure_marks_and_persists (s : SmsSend) (error : GError) (sms : Ptr)
    (message_reference : Nat) :
    sms_create_cb s (Except.error error)
      = ({ s with
            message := { s.message with status := ChattyMsgStatus.SENDING_FAILED },
            history_db := s.history_db ++
              [(s.chat, { s.message with status := ChattyMsgStatus.SENDING_FAILED })],
            task_result := some (TaskResult.error error) }, SmsNext.nothing) ∧
    sms_send_cb s sms (Except.error error) message_reference
      = ({ s with
            message := { s.message with status := ChattyMsgStatus.SENDING_FAILED },
            history_db := s.history_db ++
              [(s.chat, { s.message with status := ChattyMsgStatus.SENDING_FAILED })],
            task_result := some (TaskResult.error error) }, SmsNext.nothing) :=
  ⟨rfl, rfl⟩

/-- Witness of C16: the modem fails to create the SMS of "hello" for the chat
"112". -/
theorem sms_failure_marks_and_persists_witness :
    (sms_create_cb example_sms_send (Except.error example_modem_error)).1.message.status
      = ChattyMsgStatus.SENDING_FAILED ∧
    (sms_create_cb example_sms_send (Except.error example_modem_error)).1.history_db.length = 1 ∧
    (sms_create_cb example_sms_send (Except.error example_modem_error)).1.task_result
      = some (TaskResult.error example_modem_error) := by
  rw [(sms_failure_marks_and_persists example_sms_send example_modem_error 0 0).1]
  exact ⟨rfl, rfl, rfl⟩

/-- C17: `chatty_pp_chat_invite_async` fails with `G_IO_ERROR_NOT_SUPPORTED` and
sends no invite exactly when the chat has no live conversation, or its
protocol is not XMPP, or it is a 1:1 chat; in every other case it sends
exactly one invite and returns TRUE. -/
theorem invite_not_supported_iff (purple : Purple) (self : ChattyPpChat)
    (username invite_msg : Option CStr) :
    ((self.conv = NULL ∨ chatty_pp_chat_get_protocols purple self ≠ ChattyProtocol.XMPP ∨
        chatty_pp_chat_is_im purple self = true) →
      chatty_pp_chat_invite_async purple self username invite_msg
        = (TaskResult.error { code := GErrorCode.G_IO_ERROR_NOT_SUPPORTED,
                              message := "Chat doesn't supports invite" }, [])) ∧
    (¬ (self.conv = NULL ∨ chatty_pp_chat_get_protocols purple self ≠ ChattyProtocol.XMPP ∨
        chatty_pp_chat_is_im purple self = true) →
      chatty_pp_chat_invite_async purple self username invite_msg
        = (TaskResult.boolean true,
           [PurpleCall.serv_chat_invite self.conv invite_msg username])) ∧
    ((chatty_pp_chat_invite_async purple self username invite_msg).1
        = TaskResult.error { code := GErrorCode.G_IO_ERROR_NOT_SUPPORTED,
                             message := "Chat doesn't supports invite" }
      ↔ (self.conv = NULL ∨ chatty_pp_chat_get_protocols purple self ≠ ChattyProtocol.XMPP ∨
        chatty_pp_chat_is_im purple self = true)) := by
  by_cases h : self.conv = NULL ∨ chatty_pp_chat_get_protocols purple self ≠ ChattyProtocol.XMPP ∨
      chatty_pp_chat_is_im purple self = true
  · have e : chatty_pp_chat_invite_async purple self username invite_msg
        = (TaskResult.error { code := GErrorCode.G_IO_ERROR_NOT_SUPPORTED,
                              message := "Chat doesn't supports invite" }, []) := by
      unfold chatty_pp_chat_invite_async
      rw [if_pos h]
    refine ⟨fun _ => e, fun hn => absurd h hn, ?_⟩
    rw [e]
    exact Iff.intro (fun _ => h) (fun _ => rfl)
  · have e : chatty_pp_chat_invite_async purple self username invite_msg
        = (TaskResult.boolean true,
           [PurpleCall.serv_chat_invite self.conv invite_msg username]) := by
      unfold chatty_pp_chat_invite_async
      rw [if_neg h]
    refine ⟨fun hp => absurd hp h, fun _ => e, ?_⟩
    rw [e]
    exact Iff.intro (fun hx => by cases hx) (fun hp => absurd hp h)

/-- Witness of C17: an XMPP chat room gets the invite, a 1:1 conversation of
the same account does not. -/
theorem invite_not_supported_iff_witness :
    chatty_pp_chat_invite_async example_purple_room { chatty_pp_chat_init with conv := 30 }
        (some (c_str "bob")) none
      = (TaskResult.boolean true, [PurpleCall.serv_chat_invite 30 none (some (c_str "bob"))]) ∧
    chatty_pp_chat_invite_async example_purple { chatty_pp_chat_init with conv := 30 }
        (some (c_str "bob")) none
      = (TaskResult.error { code := GErrorCode.G_IO_ERROR_NOT_SUPPORTED,
                            message := "Chat doesn't supports invite" }, []) :=
  ⟨(invite_not_supported_iff example_purple_room { chatty_pp_chat_init with conv := 30 }
      (some (c_str "bob")) none).2.1 (by decide),
   (invite_not_supported_iff example_purple { chatty_pp_chat_init with conv := 30 }
      (some (c_str "bob")) none).1 (by decide)⟩


/-! ## Unread count and encryption -/

/-- C18: `chatty_pp_chat_set_unread_count (chat, n)` is a no-op when n is the
current unread count: no field changes and no signal is emitted. Otherwise
the unread count becomes n, exactly one "changed" signal is emitted and no
other field changes. In both cases `chatty_pp_chat_get_unread_count` returns
n afterwards. -/
theorem set_unread_count_effect (self : ChattyPpChat) (n : Nat) :
    (self.unread_count = n → chatty_pp_chat_set_unread_count self n = (self, [])) ∧
    (self.unread_count ≠ n →
      chatty_pp_chat_set_unread_count self n
        = ({ self with unread_count := n }, ["changed"])) ∧
    chatty_pp_chat_get_unread_count (chatty_pp_chat_set_unread_count self n).1 = n := by
  by_cases h : self.unread_count = n
  · simp [chatty_pp_chat_set_unread_count, chatty_pp_chat_get_unread_count, h]
  · simp [chatty_pp_chat_set_unread_count, chatty_pp_chat_get_unread_count, h]

/-- Witness of C18: the unread count of a new chat, 0, is set to 0 and then
to 3. -/
theorem set_unread_count_effect_witness :
    chatty_pp_chat_set_unread_count chatty_pp_chat_init 0 = (chatty_pp_chat_init, []) ∧
    chatty_pp_chat_set_unread_count chatty_pp_chat_init 3
      = ({ chatty_pp_chat_init with unread_count := 3 }, ["changed"]) :=
  ⟨(set_unread_count_effect chatty_pp_chat_init 0).1 rfl,
   (set_unread_count_effect chatty_pp_chat_init 3).2.1 (by decide)⟩

/-- The capability predicate `chatty_pp_chat_has_encryption_support` holds
exactly for a chat with a live conversation of IM type whose protocol is XMPP
and whose `supports_encryption` is set. -/
theorem has_encryption_support_iff (purple : Purple) (self : ChattyPpChat) :
    chatty_pp_chat_has_encryption_support purple self = true ↔
      (self.conv ≠ NULL ∧ purple.conv_type self.conv = PurpleConversationType.IM ∧
        chatty_pp_chat_get_protocols purple self = ChattyProtocol.XMPP ∧
        self.supports_encryption = true) := by
  unfold chatty_pp_chat_has_encryption_support
  by_cases hc : self.conv = NULL
  · simp [hc]
  · by_cases hp : chatty_pp_chat_get_protocols purple self = ChattyProtocol.XMPP
    · by_cases hs : self.supports_encryption = true
      · by_cases ht : purple.conv_type self.conv = PurpleConversationType.IM
        · simp [hc, hp, hs, ht]
        · simp [hc, hp, hs, ht]
      · simp [hc, hp, hs]
    · simp [hc, hp]

/-- C19: `chatty_pp_chat_set_encryption` sends an enable or disable request to
the encryption plugin exactly when the chat has a live conversation of IM
type, its protocol is XMPP and `supports_encryption` is set: then it sends
one request, for the account of the conversation and its name without
resource. In every other case it sends no request and
`chatty_pp_chat_get_encryption` returns the same value before and after the
call. The call itself changes no field of the chat. -/
theorem set_encryption_requests_iff (purple : Purple) (self : ChattyPpChat) (enable : Bool) :
    ((self.conv ≠ NULL ∧ purple.conv_type self.conv = PurpleConversationType.IM ∧
        chatty_pp_chat_get_protocols purple self = ChattyProtocol.XMPP ∧
        self.supports_encryption = true) →
      (chatty_pp_chat_set_encryption purple self enable).2.2
        = [PurpleCall.purple_signal_emit
            (if enable then "lurch-enable-im" else "lurch-disable-im")
            (purple.conv_account self.conv)
            (jabber_id_strip_resource (purple.conv_name self.conv))]) ∧
    (¬ (self.conv ≠ NULL ∧ purple.conv_type self.conv = PurpleConversationType.IM ∧
        chatty_pp_chat_get_protocols purple self = ChattyProtocol.XMPP ∧
        self.supports_encryption = true) →
      (chatty_pp_chat_set_encryption purple self enable).2.2 = [] ∧
      chatty_pp_chat_get_encryption (chatty_pp_chat_set_encryption purple self enable).1
        = chatty_pp_chat_get_encryption self) ∧
    ((chatty_pp_chat_set_encryption purple self enable).2.2 ≠ [] ↔
      (self.conv ≠ NULL ∧ purple.conv_type self.conv = PurpleConversationType.IM ∧
        chatty_pp_chat_get_protocols purple self = ChattyProtocol.XMPP ∧
        self.supports_encryption = true)) ∧
    (chatty_pp_chat_set_encryption purple self enable).1 = self := by
  have hiff := has_encryption_support_iff purple self
  by_cases h : chatty_pp_chat_has_encryption_support purple self = true
  · have hp := hiff.mp h
    have e : chatty_pp_chat_set_encryption purple self enable
        = (self, [], [PurpleCall.purple_signal_emit
            (if enable then "lurch-enable-im" else "lurch-disable-im")
            (purple.conv_account self.conv)
            (jabber_id_strip_resource (purple.conv_name self.conv))]) := by
      simp [chatty_pp_chat_set_encryption, h]
    rw [e]
    exact ⟨fun _ => rfl, fun hn => absurd hp hn,
      Iff.intro (fun _ => hp) (fun _ => by simp), rfl⟩
  · have hp : ¬ (self.conv ≠ NULL ∧ purple.conv_type self.conv = PurpleConversationType.IM ∧
        chatty_pp_chat_get_protocols purple self = ChattyProtocol.XMPP ∧
        self.supports_encryption = true) := fun hx => h (hiff.mpr hx)
    have e : chatty_pp_chat_set_encryption purple self enable
        = (self, ["notify::encrypt"], []) := by
      simp [chatty_pp_chat_set_encryption, h]
    rw [e]
    exact ⟨fun hx => absurd hx hp, fun _ => ⟨rfl, rfl⟩,
      Iff.intro (fun hx => absurd rfl hx) (fun hx => absurd hx hp), rfl⟩

/-- Witness of C19: an XMPP IM chat with encryption support sends the request
for "alice@example.com"; without `supports_encryption` it sends none. -/
theorem set_encryption_requests_iff_witness :
    (chatty_pp_chat_set_encryption example_purple
        { chatty_pp_chat_init with conv := 30, supports_encryption := true } true).2.2
      = [PurpleCall.purple_signal_emit "lurch-enable-im" 10
          (some (c_str "alice@example.com"))] ∧
    (chatty_pp_chat_set_encryption example_purple
        { chatty_pp_chat_init with conv := 30 } true).2.2 = [] :=
  ⟨(set_encryption_requests_iff example_purple
      { chatty_pp_chat_init with conv := 30, supports_encryption := true } true).1 (by decide),
   ((set_encryption_requests_iff example_purple
      { chatty_pp_chat_init with conv := 30 } true).2.1 (by decide)).1⟩

/-! ## Connecting a Matrix account -/

/-- A connect request on an enabled account that is neither Connecting nor
Connected schedules the sync start: one timeout of 300 ms for
`account_connect`, whose id, not 0, is kept in `connect_id`. -/
theorem connect_schedules_sync_start (self : ChattyMaAccount) (loop : MainLoop) (delay : Bool)
    (he : chatty_ma_account_get_enabled self = true)
    (hs : chatty_ma_account_get_status self = ChattyStatus.DISCONNECTED ∨
          chatty_ma_account_get_status self = ChattyStatus.UNKNOWN) :
    (chatty_ma_account_connect self loop delay).1.connect_id = loop.last_id + 1 ∧
    (loop.last_id + 1, 300, SourceFunc.account_connect)
      ∈ (chatty_ma_account_connect self loop delay).2.timeouts ∧
    (chatty_ma_account_connect self loop delay).1.status = self.status := by
  have he1 : self.cm_client.enabled = true := he
  have hs1 : ¬ (self.status = ChattyStatus.CONNECTING ∨ self.status = ChattyStatus.CONNECTED) := by
    have hs2 : self.status = ChattyStatus.DISCONNECTED ∨ self.status = ChattyStatus.UNKNOWN := hs
    rcases hs2 with h | h <;> simp [h]
  by_cases hc : self.connect_id = 0
  · simp [chatty_ma_account_connect, chatty_ma_account_get_enabled,
      chatty_ma_account_get_status, he1, hs1, hc, g_timeout_add]
  · simp [chatty_ma_account_connect, chatty_ma_account_get_enabled,
      chatty_ma_account_get_status, he1, hs1, hc, g_timeout_add, g_source_remove]

/-- C20: for a Matrix account, a connect request while the status is Connected
or Connecting, or while the account is disabled, is a no-op:
`chatty_ma_account_connect` schedules no timeout for the sync start and
leaves `connect_id`, the status and every other field unchanged. -/
theorem connect_while_connected_is_noop (self : ChattyMaAccount) (loop : MainLoop)
    (delay : Bool)
    (h : chatty_ma_account_get_status self = ChattyStatus.CONNECTED ∨
         chatty_ma_account_get_status self = ChattyStatus.CONNECTING ∨
         chatty_ma_account_get_enabled self = false) :
    chatty_ma_account_connect self loop delay = (self, loop) := by
  unfold chatty_ma_account_connect
  by_cases he : chatty_ma_account_get_enabled self = true
  · rcases h with h | h | h
    · simp [he, h]
    · simp [he, h]
    · rw [h] at he
      exact absurd he (by decide)
  · simp [he]

/-- Witness of C20: a connected account with the main loop of the example. -/
theorem connect_while_connected_is_noop_witness :
    chatty_ma_account_connect example_ma_account example_main_loop true
      = (example_ma_account, example_main_loop) :=
  connect_while_connected_is_noop example_ma_account example_main_loop true (Or.inl rfl)


/-! ## Disconnecting and leaving on a Matrix account -/

/-- C21: for a Matrix account in any prior status, after
`chatty_ma_account_disconnect` the status `chatty_ma_account_get_status`
returns is `CHATTY_DISCONNECTED`, the sync of the client is stopped, and a
"status" notification is emitted exactly when the prior status was not
Disconnected; no other field changes. -/
theorem disconnect_sets_disconnected (self : ChattyMaAccount) :
    chatty_ma_account_get_status (chatty_ma_account_disconnect self).1
      = ChattyStatus.DISCONNECTED ∧
    (chatty_ma_account_disconnect self).1 = { self with status := ChattyStatus.DISCONNECTED } ∧
    ((chatty_ma_account_disconnect self).2.1 = ["notify::status"] ↔
      self.status ≠ ChattyStatus.DISCONNECTED) ∧
    ((chatty_ma_account_disconnect self).2.1 = [] ↔ self.status = ChattyStatus.DISCONNECTED) ∧
    (chatty_ma_account_disconnect self).2.2 = [CmCall.cm_client_stop_sync] := by
  by_cases h : self.status = ChattyStatus.DISCONNECTED
  · have e : chatty_ma_account_disconnect self = (self, [], [CmCall.cm_client_stop_sync]) := by
      simp [chatty_ma_account_disconnect, ma_account_update_status, h]
    rw [e]
    refine ⟨h, ?_, ?_, ?_, rfl⟩
    · cases self
      simp at h
      simp [h]
    · exact Iff.intro (fun hx => by cases hx) (fun hx => absurd h hx)
    · exact Iff.intro (fun _ => h) (fun _ => rfl)
  · have e : chatty_ma_account_disconnect self
        = ({ self with status := ChattyStatus.DISCONNECTED }, ["notify::status"],
           [CmCall.cm_client_stop_sync]) := by
      simp [chatty_ma_account_disconnect, ma_account_update_status, h]
    rw [e]
    refine ⟨rfl, rfl, ?_, ?_, rfl⟩
    · exact Iff.intro (fun _ => h) (fun _ => rfl)
    · exact Iff.intro (fun hx => by cases hx) (fun hx => absurd hx h)

/-- Witness of C21: a connected account is disconnected with one notification,
and disconnecting it again emits none. -/
theorem disconnect_sets_disconnected_witness :
    chatty_ma_account_disconnect example_ma_account
      = ({ example_ma_account with status := ChattyStatus.DISCONNECTED }, ["notify::status"],
         [CmCall.cm_client_stop_sync]) ∧
    (chatty_ma_account_disconnect (chatty_ma_account_disconnect example_ma_account).1).2.1 = [] :=
  ⟨by decide,
   (disconnect_sets_disconnected (chatty_ma_account_disconnect example_ma_account).1).2.2.2.1.mpr
     (by decide)⟩

theorem count_erase_of_count_one (l : List Ptr) (a : Ptr) (h : l.count a = 1) :
    (l.erase a).count a = 0 := by
  rw [List.count_erase_self, h]

/-- C22: leaving a Matrix chat is undone when the server refuses. For an account
whose `chat_list` contains the chat exactly once,
`chatty_ma_account_leave_chat_async` removes it from `chat_list`, hides it
and asks the client library to leave its room; if the leave then completes
without success the chat is in `chat_list` exactly once again and its item
state is the state it had before the leave; if the leave succeeds the chat
stays removed. -/
theorem leave_chat_undone_on_failure (w : MaWorld) (chat : Ptr)
    (hin : w.account.chat_list.count chat = 1) :
    ∃ task,
      (chatty_ma_account_leave_chat_async w chat).2.1 = some task ∧
      task = { chat := chat, state := chatty_item_get_state w chat } ∧
      (chatty_ma_account_leave_chat_async w chat).1.account.chat_list.count chat = 0 ∧
      chatty_item_get_state (chatty_ma_account_leave_chat_async w chat).1 chat
        = ChattyItemState.HIDDEN ∧
      (chatty_ma_account_leave_chat_async w chat).2.2
        = [CmCall.cm_room_leave_async (w.chats chat).room] ∧
      (∀ error,
        (ma_account_leave_chat_cb (chatty_ma_account_leave_chat_async w chat).1 task
            false error).1.account.chat_list.count chat = 1 ∧
        chatty_item_get_state
          (ma_account_leave_chat_cb (chatty_ma_account_leave_chat_async w chat).1 task
            false error).1 chat = chatty_item_get_state w chat) ∧
      (∀ error,
        (ma_account_leave_chat_cb (chatty_ma_account_leave_chat_async w chat).1 task
            true error).1.account.chat_list.count chat = 0) := by
  have hmem : chat ∈ w.account.chat_list := List.count_pos_iff.mp (by omega)
  have h0 := count_erase_of_count_one _ _ hin
  refine ⟨{ chat := chat, state := chatty_item_get_state w chat }, ?_, rfl, ?_, ?_, ?_, ?_, ?_⟩
  · simp [chatty_ma_account_leave_chat_async, chatty_utils_remove_list_item, hmem,
      chatty_item_get_state]
  · simp [chatty_ma_account_leave_chat_async, chatty_utils_remove_list_item, hmem,
      chatty_item_set_state, h0]
  · simp [chatty_ma_account_leave_chat_async, chatty_utils_remove_list_item, hmem,
      chatty_item_set_state, chatty_item_get_state]
  · simp [chatty_ma_account_leave_chat_async, chatty_utils_remove_list_item, hmem,
      chatty_item_set_state]
  · intro error
    cases error <;>
      simp [ma_account_leave_chat_cb, chatty_ma_account_leave_chat_async,
        chatty_utils_remove_list_item, hmem, chatty_item_set_state, chatty_item_get_state, h0]
  · intro error
    cases error <;>
      simp [ma_account_leave_chat_cb, chatty_ma_account_leave_chat_async,
        chatty_utils_remove_list_item, hmem, chatty_item_set_state, h0]

/-- Witness of C22: the archived chat of room 101 is left and the server
refuses: the chat is back in the list, archived. -/
theorem leave_chat_undone_on_failure_witness :
    (chatty_ma_account_leave_chat_async example_ma_rooms 1000).1.account.chat_list
      = [1002, 1001] ∧
    (ma_account_leave_chat_cb (chatty_ma_account_leave_chat_async example_ma_rooms 1000).1
        { chat := 1000, state := ChattyItemState.ARCHIVED } false none).1.account.chat_list
      = [1002, 1001, 1000] ∧
    chatty_item_get_state
        (ma_account_leave_chat_cb (chatty_ma_account_leave_chat_async example_ma_rooms 1000).1
          { chat := 1000, state := ChattyItemState.ARCHIVED } false none).1 1000
      = ChattyItemState.ARCHIVED ∧
    (chatty_ma_account_leave_chat_async example_ma_rooms 1000).1.account.chat_list.count 1000
      = 0 :=
  ⟨by decide, by decide, by decide,
   match leave_chat_undone_on_failure example_ma_rooms 1000 (by decide) with
   | ⟨_, _, _, h, _⟩ => h⟩


/-! ## Status of the SMS account -/

theorem get_status_loop_eq (status : ChattyStatus) (devices : List ChattyMmDevice) :
    get_status_loop status devices =
      if devices.any (fun device =>
          match device.modem_state with
          | some state => decide (state ≥ MM_MODEM_STATE_ENABLED)
          | none => false) = true
      then ChattyStatus.CONNECTED else status := by
  induction devices with
  | nil => simp [get_status_loop]
  | cons device devices ih =>
    cases hm : device.modem_state with
    | none => simp [get_status_loop, hm, ih]
    | some state =>
      by_cases hs : state ≥ MM_MODEM_STATE_ENABLED
      · simp [get_status_loop, hm, hs]
      · simp [get_status_loop, hm, hs, ih]

/-- C27: Unknown is only a transient status of the SMS account.
`chatty_mm_account_get_status` never returns `CHATTY_UNKNOWN`; a cached status
other than Unknown is returned as it is; when the cached status is Unknown it
returns `CHATTY_CONNECTED` if some device has a modem whose state is at
least `MM_MODEM_STATE_ENABLED`, and `CHATTY_DISCONNECTED` otherwise, in
particular for an empty device list; it stores the value it returns and
leaves the device list as it is, so that a second call returns the same
value. -/
theorem get_status_never_unknown (self : ChattyMmAccountStatus) :
    (chatty_mm_account_get_status self).1 ≠ ChattyStatus.UNKNOWN ∧
    (self.status ≠ ChattyStatus.UNKNOWN →
      chatty_mm_account_get_status self = (self.status, self)) ∧
    (self.status = ChattyStatus.UNKNOWN →
      (chatty_mm_account_get_status self).1 =
        if self.device_list.any (fun device =>
            match device.modem_state with
            | some state => decide (state ≥ MM_MODEM_STATE_ENABLED)
            | none => false) = true
        then ChattyStatus.CONNECTED else ChattyStatus.DISCONNECTED) ∧
    (self.status = ChattyStatus.UNKNOWN → self.device_list = [] →
      (chatty_mm_account_get_status self).1 = ChattyStatus.DISCONNECTED) ∧
    (chatty_mm_account_get_status self).2
      = { self with status := (chatty_mm_account_get_status self).1 } ∧
    (chatty_mm_account_get_status (chatty_mm_account_get_status self).2).1
      = (chatty_mm_account_get_status self).1 := by
  have hknown : ∀ s : ChattyMmAccountStatus, s.status ≠ ChattyStatus.UNKNOWN →
      chatty_mm_account_get_status s = (s.status, s) := by
    intro s hs
    simp [chatty_mm_account_get_status, hs]
  have hunknown : self.status = ChattyStatus.UNKNOWN →
      chatty_mm_account_get_status self =
        (if self.device_list.any (fun device =>
            match device.modem_state with
            | some state => decide (state ≥ MM_MODEM_STATE_ENABLED)
            | none => false) = true
          then ChattyStatus.CONNECTED else ChattyStatus.DISCONNECTED,
         { self with status :=
            if self.device_list.any (fun device =>
              match device.modem_state with
              | some state => decide (state ≥ MM_MODEM_STATE_ENABLED)
              | none => false) = true
            then ChattyStatus.CONNECTED else ChattyStatus.DISCONNECTED }) := by
    intro hs
    unfold chatty_mm_account_get_status
    rw [if_neg (by simp [hs])]
    cases hd : self.device_list with
    | nil => simp [get_status_loop]
    | cons device devices =>
      simp only [List.length_cons, Nat.succ_ne_zero, if_false, get_status_loop_eq, hs]
      split_ifs <;> simp_all
  by_cases hs : self.status = ChattyStatus.UNKNOWN
  · have e := hunknown hs
    have hne : (chatty_mm_account_get_status self).1 ≠ ChattyStatus.UNKNOWN := by
      rw [e]
      simp only []
      split_ifs <;> simp
    refine ⟨hne, fun h => absurd hs h, fun _ => by rw [e], ?_, ?_, ?_⟩
    · intro _ hd
      rw [e, hd]
      simp
    · rw [e]
    · have h2 := hknown (chatty_mm_account_get_status self).2 (by
        rw [e]
        simp only []
        split_ifs <;> simp)
      rw [h2, e]
  · have e := hknown self hs
    rw [e]
    refine ⟨hs, fun _ => rfl, fun h => absurd h hs, fun h => absurd h hs, ?_, ?_⟩
    · cases self
      rfl
    · simp only []
      rw [e]

/-- Witness of C27: with a device without modem, a disabled modem (state 3) and
a registered modem (state 8) the status Unknown becomes Connected; with no
device it becomes Disconnected. -/
theorem get_status_never_unknown_witness :
    (chatty_mm_account_get_status
        { status := ChattyStatus.UNKNOWN,
          device_list := [⟨none⟩, ⟨some 3⟩, ⟨some 8⟩] }).1 = ChattyStatus.CONNECTED ∧
    (chatty_mm_account_get_status
        { status := ChattyStatus.UNKNOWN, device_list := [] }).1 = ChattyStatus.DISCONNECTED :=
  ⟨by decide,
   (get_status_never_unknown { status := ChattyStatus.UNKNOWN, device_list := [] }).2.2.2.1
     rfl rfl⟩


/-! ## Symmetry of the identity of libpurple chats -/

theorem match_purple_conv_false_unchanged (purple : Purple) (self : ChattyPpChat) (conv : Ptr)
    (h : (chatty_pp_chat_match_purple_conv purple self conv).1 = false) :
    (chatty_pp_chat_match_purple_conv purple self conv).2 = self := by
  unfold chatty_pp_chat_match_purple_conv at h ⊢
  by_cases h1 : conv = NULL
  · simp [h1]
  · by_cases h2 : self.conv ≠ NULL ∧ conv = self.conv
    · simp [h1, h2] at h
    · by_cases h3 : self.account ≠ NULL ∧ self.account ≠ purple.conv_account conv
      · simp [h1, h2, h3]
      · by_cases h4 : purple.conv_blist_node conv = NULL
        · simp [h1, h2, h3, h4]
        · by_cases h5 : purple.conv_blist_node conv = self.pp_chat ∨
              purple.conv_blist_node conv = self.buddy
          · simp [h1, h2, h3, h4, h5] at h
          · simp [h1, h2, h3, h4, h5]

/-- The result of `chatty_pp_chat_are_same` on two different objects: one of the
three pointer checks holds, or the conversation of one chat matches the other
chat. -/
theorem are_same_fst (purple : Purple) (heap : ChatHeap) (a b : Ptr) (hab : a ≠ b) :
    (chatty_pp_chat_are_same purple heap a b).1 = true ↔
      (((heap a).account ≠ NULL ∧ (heap a).buddy ≠ NULL ∧
          (heap a).account = (heap b).account ∧ (heap a).buddy = (heap b).buddy) ∨
       ((heap a).conv ≠ NULL ∧ (heap a).conv = (heap b).conv) ∨
       ((heap a).pp_chat ≠ NULL ∧ (heap a).pp_chat = (heap b).pp_chat) ∨
       ((heap a).conv ≠ NULL ∧
          (chatty_pp_chat_match_purple_conv purple (heap b) (heap a).conv).1 = true) ∨
       ((heap b).conv ≠ NULL ∧
          (chatty_pp_chat_match_purple_conv purple (heap a) (heap b).conv).1 = true)) := by
  by_cases h2 : (heap a).account ≠ NULL ∧ (heap a).buddy ≠ NULL ∧
      (heap a).account = (heap b).account ∧ (heap a).buddy = (heap b).buddy
  · rw [are_same_early purple heap a b (Or.inr (Or.inl h2))]
    exact Iff.intro (fun _ => Or.inl h2) (fun _ => rfl)
  by_cases h3 : (heap a).conv ≠ NULL ∧ (heap a).conv = (heap b).conv
  · rw [are_same_early purple heap a b (Or.inr (Or.inr (Or.inl h3)))]
    exact Iff.intro (fun _ => Or.inr (Or.inl h3)) (fun _ => rfl)
  by_cases h4 : (heap a).pp_chat ≠ NULL ∧ (heap a).pp_chat = (heap b).pp_chat
  · rw [are_same_early purple heap a b (Or.inr (Or.inr (Or.inr h4)))]
    exact Iff.intro (fun _ => Or.inr (Or.inr (Or.inl h4))) (fun _ => rfl)
  have hba : b ≠ a := fun e => hab e.symm
  have h2' : (heap a).account ≠ NULL → (heap a).buddy ≠ NULL →
      (heap a).account = (heap b).account → ¬ (heap a).buddy = (heap b).buddy :=
    fun x y z u => h2 ⟨x, y, z, u⟩
  have h3' : (heap a).conv ≠ NULL → ¬ (heap a).conv = (heap b).conv := fun x y => h3 ⟨x, y⟩
  have h4' : (heap a).pp_chat ≠ NULL → ¬ (heap a).pp_chat = (heap b).pp_chat :=
    fun x y => h4 ⟨x, y⟩
  have hor : ∀ p q : Prop, (¬ p) → (¬ q) →
      ((((heap a).account ≠ NULL ∧ (heap a).buddy ≠ NULL ∧
          (heap a).account = (heap b).account ∧ (heap a).buddy = (heap b).buddy) ∨
       ((heap a).conv ≠ NULL ∧ (heap a).conv = (heap b).conv) ∨
       ((heap a).pp_chat ≠ NULL ∧ (heap a).pp_chat = (heap b).pp_chat) ∨ p ∨ q) ↔ False) := by
    intro p q hp hq
    constructor
    · rintro (h | h | h | h | h)
      · exact h2 h
      · exact h3 h
      · exact h4 h
      · exact hp h
      · exact hq h
    · exact False.elim
  unfold chatty_pp_chat_are_same
  rw [if_neg hab, if_neg h2, if_neg h3, if_neg h4]
  by_cases hca : (heap a).conv ≠ NULL
  · cases hm : (chatty_pp_chat_match_purple_conv purple (heap b) (heap a).conv).1 with
    | true => simp [hca, hm]
    | false =>
      have hu := match_purple_conv_false_unchanged purple (heap b) (heap a).conv hm
      have hup : Function.update heap b (heap b) = heap := Function.update_eq_self b heap
      by_cases hcb : (heap b).conv ≠ NULL
      · cases hm2 : (chatty_pp_chat_match_purple_conv purple (heap a) (heap b).conv).1 with
        | true => simp [hca, hm, hu, hup, hcb, hm2]
        | false =>
          rw [hor _ _ (fun x => by simp [hm] at x) (fun x => by simp [hm2] at x)]
          simp [hca, hm, hu, hup, hcb, hm2]
      · rw [hor _ _ (fun x => by simp [hm] at x) (fun x => hcb x.1)]
        simp [hca, hm, hu, hup, hcb]
  · by_cases hcb : (heap b).conv ≠ NULL
    · cases hm2 : (chatty_pp_chat_match_purple_conv purple (heap a) (heap b).conv).1 with
      | true => simp [hca, hcb, hm2]
      | false =>
        rw [hor _ _ (fun x => hca x.1) (fun x => by simp [hm2] at x)]
        simp [hca, hcb, hm2]
    · rw [hor _ _ (fun x => hca x.1) (fun x => hcb x.1)]
      simp [hca, hcb]

theorem are_same_false_unchanged (purple : Purple) (heap : ChatHeap) (a b : Ptr)
    (h : (chatty_pp_chat_are_same purple heap a b).1 = false) :
    (chatty_pp_chat_are_same purple heap a b).2 = heap := by
  by_cases hab : a = b
  · rw [are_same_early purple heap a b (Or.inl hab)]
  by_cases h2 : (heap a).account ≠ NULL ∧ (heap a).buddy ≠ NULL ∧
      (heap a).account = (heap b).account ∧ (heap a).buddy = (heap b).buddy
  · rw [are_same_early purple heap a b (Or.inr (Or.inl h2))]
  by_cases h3 : (heap a).conv ≠ NULL ∧ (heap a).conv = (heap b).conv
  · rw [are_same_early purple heap a b (Or.inr (Or.inr (Or.inl h3)))]
  by_cases h4 : (heap a).pp_chat ≠ NULL ∧ (heap a).pp_chat = (heap b).pp_chat
  · rw [are_same_early purple heap a b (Or.inr (Or.inr (Or.inr h4)))]
  have hba : b ≠ a := fun e => hab e.symm
  have hupb : Function.update heap b (heap b) = heap := Function.update_eq_self b heap
  have hupa : Function.update heap a (heap a) = heap := Function.update_eq_self a heap
  unfold chatty_pp_chat_are_same at h ⊢
  rw [if_neg hab, if_neg h2, if_neg h3, if_neg h4] at h
  rw [if_neg hab, if_neg h2, if_neg h3, if_neg h4]
  by_cases hca : (heap a).conv ≠ NULL
  · cases hm : (chatty_pp_chat_match_purple_conv purple (heap b) (heap a).conv).1 with
    | true => simp [hca, hm] at h
    | false =>
      have hu := match_purple_conv_false_unchanged purple (heap b) (heap a).conv hm
      by_cases hcb : (heap b).conv ≠ NULL
      · cases hm2 : (chatty_pp_chat_match_purple_conv purple (heap a) (heap b).conv).1 with
        | true => simp [hca, hm, hu, hupb, hcb, hm2] at h
        | false =>
          have hu2 := match_purple_conv_false_unchanged purple (heap a) (heap b).conv hm2
          simp [hca, hm, hu, hupb, hcb, hm2, hu2, hupa]
      · simp [hca, hm, hu, hupb, hcb]
  · by_cases hcb : (heap b).conv ≠ NULL
    · cases hm2 : (chatty_pp_chat_match_purple_conv purple (heap a) (heap b).conv).1 with
      | true => simp [hca, hcb, hm2] at h
      | false =>
        have hu2 := match_purple_conv_false_unchanged purple (heap a) (heap b).conv hm2
        simp [hca, hcb, hm2, hu2, hupa]
    · simp [hca, hcb]

/-- C29: `chatty_pp_chat_are_same` is symmetric in its result. For every pair of
chats in the same state, the calls for (a, b) and for (b, a) return the same
boolean, and when the result is FALSE neither call has modified a chat. -/
theorem are_same_symmetric (purple : Purple) (heap : ChatHeap) (a b : Ptr) :
    (chatty_pp_chat_are_same purple heap a b).1 = (chatty_pp_chat_are_same purple heap b a).1 ∧
    ((chatty_pp_chat_are_same purple heap a b).1 = false →
      (chatty_pp_chat_are_same purple heap a b).2 = heap ∧
      (chatty_pp_chat_are_same purple heap b a).2 = heap) := by
  have hsym : (chatty_pp_chat_are_same purple heap a b).1
      = (chatty_pp_chat_are_same purple heap b a).1 := by
    by_cases hab : a = b
    · rw [hab]
    · have hba : b ≠ a := fun e => hab e.symm
      rw [Bool.eq_iff_iff, are_same_fst purple heap a b hab, are_same_fst purple heap b a hba]
      constructor
      · rintro (⟨h1, h2, h3, h4⟩ | ⟨h1, h2⟩ | ⟨h1, h2⟩ | h | h)
        · exact Or.inl ⟨h3 ▸ h1, h4 ▸ h2, h3.symm, h4.symm⟩
        · exact Or.inr (Or.inl ⟨h2 ▸ h1, h2.symm⟩)
        · exact Or.inr (Or.inr (Or.inl ⟨h2 ▸ h1, h2.symm⟩))
        · exact Or.inr (Or.inr (Or.inr (Or.inr h)))
        · exact Or.inr (Or.inr (Or.inr (Or.inl h)))
      · rintro (⟨h1, h2, h3, h4⟩ | ⟨h1, h2⟩ | ⟨h1, h2⟩ | h | h)
        · exact Or.inl ⟨h3 ▸ h1, h4 ▸ h2, h3.symm, h4.symm⟩
        · exact Or.inr (Or.inl ⟨h2 ▸ h1, h2.symm⟩)
        · exact Or.inr (Or.inr (Or.inl ⟨h2 ▸ h1, h2.symm⟩))
        · exact Or.inr (Or.inr (Or.inr (Or.inr h)))
        · exact Or.inr (Or.inr (Or.inr (Or.inl h)))
  refine ⟨hsym, fun h => ⟨are_same_false_unchanged purple heap a b h, ?_⟩⟩
  exact are_same_false_unchanged purple heap b a (by rw [← hsym]; exact h)

/-- Witness of C29: the chat of the lost conversation and the buddy chat do
not match in either order and stay as they are; the chats of a buddy-add
event and of its live conversation match in both orders. -/
theorem are_same_symmetric_witness :
    (chatty_pp_chat_are_same example_purple example_same_buddy 1 2).1 = false ∧
    (chatty_pp_chat_are_same example_purple example_same_buddy 2 1).1 = false ∧
    (chatty_pp_chat_are_same example_purple example_same_buddy 1 2).2 = example_same_buddy ∧
    (chatty_pp_chat_are_same example_purple example_reconcile 2 1).1
      = (chatty_pp_chat_are_same example_purple example_reconcile 1 2).1 :=
  ⟨by decide, by decide,
   ((are_same_symmetric example_purple example_same_buddy 1 2).2 (by decide)).1,
   (are_same_symmetric example_purple example_reconcile 2 1).1⟩


/-! ## The chat list of the Matrix account and the rooms of its client -/

/-- C28: the handler `joined_rooms_changed` applies the position of a change in
one room model to the one `chat_list` that holds the chats of both models.
After `ma_account_set_client` with the joined rooms 101, 102 and the invited
room 201 the chats are those of the rooms 201, 101, 102. When room 101 then
leaves the joined model (position 0, one removed), the handler removes the
chat at position 0 of `chat_list`, the chat of the invited room 201: the
models hold the rooms 102 and 201, the chat list the chats of 101 and 102. -/
theorem chat_list_loses_room_of_other_model :
    chat_list_rooms (ma_account_set_client example_ma_world example_cm_client)
      = [201, 101, 102] ∧
    (rooms_run (ma_account_set_client example_ma_world example_cm_client)
        [RoomsEvent.joined_rooms_items_changed 0 1 []]).account.cm_client.joined_rooms
      = [102] ∧
    (rooms_run (ma_account_set_client example_ma_world example_cm_client)
        [RoomsEvent.joined_rooms_items_changed 0 1 []]).account.cm_client.invited_rooms
      = [201] ∧
    chat_list_rooms (rooms_run (ma_account_set_client example_ma_world example_cm_client)
        [RoomsEvent.joined_rooms_items_changed 0 1 []])
      = [101, 102] := by
  refine ⟨by decide, by decide, by decide, by decide⟩

/-! ## The sender of an incoming MMS -/

/-- C30: `chatty_mm_account_recieve_mms_cb` compares each member with the member
itself when the sender does not normalise: the fallback of `phone2` is the
number of the member, not the sender. For every normaliser that returns
`NULL` for the sender and leaves the number of the first member as it is (or
returns `NULL` for it), the loop stops at the first member. With the
normaliser of the test table and country "IN", the incoming MMS of the
sender "BT-123" to "+919633123456,BT-123" gets the member "+919633123456"
attached, although "BT-123" is a member of the chat. A sender that is no
member at all gets the last member attached: "+12133219876" to "112,911"
gets "911". -/
theorem mms_sender_fallback_picks_other_member :
    (∀ (check : Normalizer) (cc sender : CStr) (buddy : ChattyMmBuddy)
        (users : List ChattyMmBuddy) (senderbuddy : Option ChattyMmBuddy),
      check sender cc = none →
      (check buddy.number cc = none ∨ check buddy.number cc = some buddy.number) →
      find_sender_loop check cc sender senderbuddy (buddy :: users) = some buddy) ∧
    (chatty_mm_account_recieve_mms_cb phone_table_check (c_str "IN") ⟨[]⟩ (fun _ => []) []
        example_mms (c_str "BT-123") (some (c_str "+919633123456,BT-123"))).appended
      = some { example_mms with
          user := some { number := c_str "+919633123456", name := c_str "+919633123456" } } ∧
    ((chatty_mm_account_recieve_mms_cb phone_table_check (c_str "IN") ⟨[]⟩ (fun _ => []) []
        example_mms (c_str "BT-123") (some (c_str "+919633123456,BT-123"))).chat.map
        ChattyMmChat.users)
      = some [{ number := c_str "+919633123456", name := c_str "+919633123456" },
              { number := c_str "BT-123", name := c_str "BT-123" }] ∧
    canonical_number phone_table_check (c_str "IN") (c_str "BT-123") = c_str "BT-123" ∧
    canonical_number phone_table_check (c_str "IN") (c_str "+919633123456")
      = c_str "+919633123456" ∧
    (chatty_mm_account_recieve_mms_cb phone_table_check (c_str "US") ⟨[]⟩ (fun _ => []) []
        example_mms (c_str "+12133219876") (some (c_str "112,911"))).appended
      = some { example_mms with
          user := some { number := c_str "911", name := c_str "911" } } := by
  refine ⟨?_, by decide, by decide, by decide, by decide, by decide⟩
  intro check cc sender buddy users senderbuddy hs hb
  rcases hb with hb | hb
  · simp [find_sender_loop, hs, hb, g_strcmp0_eq_zero_iff]
  · simp [find_sender_loop, hs, hb, g_strcmp0_eq_zero_iff]


/-! ## Stripping the resource of a Jabber id -/

theorem split_on_head (d : Nat) (s : CStr) :
    (split_on d s).head? = some (s.takeWhile (fun c => c ≠ d)) := by
  induction s with
  | nil => rfl
  | cons c cs ih =>
    by_cases hc : c = d
    · simp [split_on, hc, List.takeWhile]
    · cases hs : split_on d cs with
      | nil => exact absurd hs (split_on_ne_nil d cs)
      | cons t ts =>
        rw [hs] at ih
        simp only [List.head?_cons, Option.some.injEq] at ih
        simp [split_on, hc, hs, List.takeWhile, ih]

theorem jabber_id_strip_resource_eq (id : CStr) (hne : id ≠ []) :
    jabber_id_strip_resource id = some (before_first_slash id) := by
  simp [jabber_id_strip_resource, g_strsplit, hne, split_on_head, before_first_slash]

theorem not_mem_before_first_slash (id : CStr) : SLASH ∉ before_first_slash id := by
  intro h
  have := @List.mem_takeWhile_imp Nat (fun c => decide (c ≠ SLASH)) id SLASH h
  simp at this

theorem before_first_slash_idem (id : CStr) :
    before_first_slash (before_first_slash id) = before_first_slash id := by
  unfold before_first_slash
  rw [List.takeWhile_eq_self_iff]
  intro c hc
  exact @List.mem_takeWhile_imp Nat (fun c => decide (c ≠ SLASH)) id c hc

theorem before_first_slash_eq_nil_iff (id : CStr) (hne : id ≠ []) :
    before_first_slash id = [] ↔ id.head? = some SLASH := by
  cases id with
  | nil => exact absurd rfl hne
  | cons c cs =>
    by_cases hc : c = SLASH
    · simp [before_first_slash, List.takeWhile, hc]
    · simp [before_first_slash, List.takeWhile, hc]

/-- Counterexample to C25 as stated: the id "/x" is not empty, its part before
the first '/' is the empty string, and stripping the empty string returns
`NULL`, not the empty string. -/
theorem jabber_id_strip_twice_counterexample :
    jabber_id_strip_resource (c_str "/x") = some [] ∧
    jabber_id_strip_resource [] = none ∧
    chatty_utils_jabber_id_strip (c_str "/x") = some [] ∧
    chatty_utils_jabber_id_strip [] = none := by
  decide

/-- C25, amended: for every non-empty id, `jabber_id_strip_resource` and
`chatty_utils_jabber_id_strip` return the part of the id before its first
'/', the whole id when it contains no '/'; the result contains no '/'; and
when the id does not start with '/', so that the result is not empty,
stripping the result again returns it unchanged. The second function agrees
with the rows of `test_utils_jabber_id_strip`. -/
theorem jabber_id_strip_before_first_slash (id : CStr) (hne : id ≠ []) :
    jabber_id_strip_resource id = some (before_first_slash id) ∧
    chatty_utils_jabber_id_strip id = some (before_first_slash id) ∧
    (SLASH ∉ id → before_first_slash id = id) ∧
    SLASH ∉ before_first_slash id ∧
    (id.head? ≠ some SLASH →
      jabber_id_strip_resource (before_first_slash id) = some (before_first_slash id) ∧
      chatty_utils_jabber_id_strip (before_first_slash id) = some (before_first_slash id)) ∧
    (∀ row ∈ jabber_id_strip_rows,
      chatty_utils_jabber_id_strip (c_str row.1) = some (c_str row.2)) := by
  have h1 := jabber_id_strip_resource_eq id hne
  refine ⟨h1, h1, ?_, not_mem_before_first_slash id, ?_, by decide⟩
  · intro hs
    unfold before_first_slash
    rw [List.takeWhile_eq_self_iff]
    intro c hc
    simp only [ne_eq, decide_eq_true_eq]
    intro e
    exact hs (e ▸ hc)
  · intro hhead
    have hne2 : before_first_slash id ≠ [] :=
      fun e => hhead ((before_first_slash_eq_nil_iff id hne).mp e)
    have h2 := jabber_id_strip_resource_eq (before_first_slash id) hne2
    rw [before_first_slash_idem] at h2
    exact ⟨h2, h2⟩

/-- Witness of C25, amended: "test@example.com/aacc" gives "test@example.com",
and stripping that again gives the same. -/
theorem jabber_id_strip_before_first_slash_witness :
    jabber_id_strip_resource (c_str "test@example.com/aacc") = some (c_str "test@example.com") ∧
    jabber_id_strip_resource (c_str "test@example.com") = some (c_str "test@example.com") ∧
    jabber_id_strip_resource (c_str "test@example.com/aacc")
      = some (before_first_slash (c_str "test@example.com/aacc")) :=
  ⟨by decide, by decide,
   (jabber_id_strip_before_first_slash (c_str "test@example.com/aacc") (by decide)).1⟩


/-! ## The phone number normaliser -/

theorem strip_formatting_idem (number : CStr) :
    strip_formatting (strip_formatting number) = strip_formatting number := by
  simp [strip_formatting, List.filter_filter]

theorem strip_formatting_all (number : CStr) (h : number.all is_number_char = true) :
    (strip_formatting number).all is_number_char = true := by
  rw [List.all_eq_true] at h ⊢
  intro c hc
  exact h c (List.mem_of_mem_filter hc)

theorem strip_formatting_eq_self (number : CStr)
    (h : ∀ c ∈ number, is_formatting c = false) : strip_formatting number = number := by
  unfold strip_formatting
  rw [List.filter_eq_self]
  intro c hc
  simp [h c hc]

theorem not_formatting_of_mem_strip (number : CStr) (c : Nat)
    (hc : c ∈ strip_formatting number) : is_formatting c = false := by
  have := List.of_mem_filter hc
  simpa using this

theorem is_digit_number_char (c : Nat) (h : is_digit c = true) :
    is_number_char c = true ∧ is_formatting c = false := by
  simp only [is_digit, Bool.and_eq_true, decide_eq_true_eq] at h
  have h1 : ¬ c = 45 := by omega
  have h2 : ¬ c = 40 := by omega
  have h3 : ¬ c = 41 := by omega
  have h4 : ¬ c = 32 := by omega
  have hd : is_digit c = true := by simp [is_digit, h]
  simp [is_number_char, is_formatting, hd, h1, h2, h3, h4]

/-- The canonical form and the validity depend on the number only through its
cleaned form. -/
theorem check_phonenumber_of_cleaned (nb : Numbering) (number region : CStr)
    (h : number.all is_number_char = true) :
    chatty_utils_check_phonenumber nb (strip_formatting number) region
      = chatty_utils_check_phonenumber nb number region := by
  simp only [chatty_utils_check_phonenumber, strip_formatting_idem, h,
    strip_formatting_all number h]

theorem check_phonenumber_with_prefix (nb : Numbering) (number region : CStr)
    (hchars : number.all is_number_char = true)
    (hclean : ∀ c ∈ number, is_formatting c = false) :
    chatty_utils_check_phonenumber nb (PLUS :: number) region = some (PLUS :: number) := by
  have hall : (PLUS :: number).all is_number_char = true := by
    simp only [List.all_cons, hchars, Bool.and_true]
    decide
  have hstrip : strip_formatting (PLUS :: number) = PLUS :: number := by
    apply strip_formatting_eq_self
    intro c hc
    rcases List.mem_cons.mp hc with e | e
    · rw [e]
      decide
    · exact hclean c e
  simp [chatty_utils_check_phonenumber, hall, hstrip, carries_country_code]

/-- C23: phone number normalisation is idempotent. For numbering data whose
country calling codes are digits, whenever
`chatty_utils_check_phonenumber (n, r)` returns a canonical string c,
`chatty_utils_check_phonenumber (c, r)` returns c. -/
theorem check_phonenumber_idempotent (nb : Numbering)
    (hcodes : ∀ region code, nb.calling_code region = some code → code.all is_digit = true)
    (number region canonical : CStr)
    (h : chatty_utils_check_phonenumber nb number region = some canonical) :
    chatty_utils_check_phonenumber nb canonical region = some canonical := by
  by_cases hchars : number.all is_number_char = true
  · have hcl := check_phonenumber_of_cleaned nb number region hchars
    by_cases hc : canonical = strip_formatting number
    · rw [hc, hcl, h, hc]
    · -- the canonical form is the cleaned number with the country prefix of the hint
      unfold chatty_utils_check_phonenumber at h
      simp only [hchars, not_true_eq_false, if_false] at h
      by_cases h1 : strip_formatting number = []
      · simp [h1] at h
      · by_cases h2 : carries_country_code (strip_formatting number) = true
        · simp [h1, h2] at h
          exact absurd h.symm hc
        · by_cases h3 : (strip_formatting number).length < nb.min_length
          · simp [h1, h2, h3] at h
            exact absurd h.symm hc
          · cases hcode : nb.calling_code region with
            | none =>
              simp [h1, h2, h3, hcode] at h
              exact absurd h.symm hc
            | some code =>
              by_cases h4 : nb.resolves (PLUS :: code ++ strip_formatting number) = true
              · have h4c : nb.resolves (PLUS :: (code ++ strip_formatting number)) = true := h4
                simp [h1, h2, h3, hcode, h4c] at h
                rw [← h]
                have hd := hcodes region code hcode
                rw [List.all_eq_true] at hd
                have hsa := strip_formatting_all number hchars
                rw [List.all_eq_true] at hsa
                apply check_phonenumber_with_prefix
                · rw [List.all_eq_true]
                  intro c hcm
                  rcases List.mem_append.mp hcm with e | e
                  · exact (is_digit_number_char c (hd c e)).1
                  · exact hsa c e
                · intro c hcm
                  rcases List.mem_append.mp hcm with e | e
                  · exact (is_digit_number_char c (hd c e)).2
                  · exact not_formatting_of_mem_strip number c e
              · have h4c : ¬ nb.resolves (PLUS :: (code ++ strip_formatting number)) = true := h4
                simp [h1, h2, h3, hcode, h4c] at h
                exact absurd h.symm hc
  · simp [chatty_utils_check_phonenumber, hchars] at h

theorem example_numbering_codes (region code : CStr)
    (h : example_numbering.calling_code region = some code) : code.all is_digit = true := by
  simp only [example_numbering] at h
  split_ifs at h <;> (cases h; decide)

/-- Witness of C23: "9633 123 456" with the hint "IN" gives "+919633123456",
which gives itself. -/
theorem check_phonenumber_idempotent_witness :
    chatty_utils_check_phonenumber example_numbering (c_str "9633 123 456") (c_str "IN")
      = some (c_str "+919633123456") ∧
    chatty_utils_check_phonenumber example_numbering (c_str "+919633123456") (c_str "IN")
      = some (c_str "+919633123456") :=
  ⟨by decide,
   check_phonenumber_idempotent example_numbering example_numbering_codes
     (c_str "9633 123 456") (c_str "IN") (c_str "+919633123456") (by decide)⟩

/-- C24: a number that carries a country prefix is normalised independently of
the region hint and of formatting. For a number written with a leading '+'
and any other writing of it with the same characters apart from formatting,
`chatty_utils_check_phonenumber` returns the same canonical string under
every two region hints, and `chatty_phone_utils_is_valid` gives the same
answer. -/
theorem prefixed_number_ignores_hint (nb : Numbering) (number other r1 r2 : CStr)
    (hplus : number.head? = some PLUS)
    (hfmt : strip_formatting other = strip_formatting number)
    (hchars : other.all is_number_char = number.all is_number_char) :
    chatty_utils_check_phonenumber nb number r1 = chatty_utils_check_phonenumber nb other r2 ∧
    chatty_phone_utils_is_valid nb number r1 = chatty_phone_utils_is_valid nb other r2 := by
  cases number with
  | nil => simp at hplus
  | cons c cs =>
    simp only [List.head?_cons, Option.some.injEq] at hplus
    subst hplus
    have hs : strip_formatting (PLUS :: cs) = PLUS :: strip_formatting cs := by
      simp [strip_formatting, is_formatting, PLUS]
    have hp : carries_country_code (PLUS :: strip_formatting cs) = true := by
      simp [carries_country_code]
    simp only [chatty_utils_check_phonenumber, chatty_phone_utils_is_valid, hfmt, hchars, hs, hp,
      if_true, reduceCtorEq, if_false]
    trivial

/-- Witness of C24: "+1 213 321 9876" gives "+12133219876" under the hints
"US", "DE", "PL" and "GB", as "+12133219876" does, and is valid under each. -/
theorem prefixed_number_ignores_hint_witness :
    chatty_utils_check_phonenumber example_numbering (c_str "+1 213 321 9876") (c_str "US")
      = some (c_str "+12133219876") ∧
    chatty_utils_check_phonenumber example_numbering (c_str "+1 213 321 9876") (c_str "DE")
      = some (c_str "+12133219876") ∧
    chatty_utils_check_phonenumber example_numbering (c_str "+1 213 321 9876") (c_str "PL")
      = some (c_str "+12133219876") ∧
    chatty_utils_check_phonenumber example_numbering (c_str "+1 213 321 9876") (c_str "GB")
      = some (c_str "+12133219876") ∧
    chatty_utils_check_phonenumber example_numbering (c_str "+1 213 321 9876") (c_str "US")
      = chatty_utils_check_phonenumber example_numbering (c_str "+12133219876") (c_str "DE") ∧
    chatty_phone_utils_is_valid example_numbering (c_str "+1 213 321 9876") (c_str "US")
      = chatty_phone_utils_is_valid example_numbering (c_str "+12133219876") (c_str "DE") :=
  ⟨by decide, by decide, by decide, by decide,
   (prefixed_number_ignores_hint example_numbering (c_str "+1 213 321 9876")
      (c_str "+12133219876") (c_str "US") (c_str "DE") (by decide) (by decide) (by decide)).1,
   (prefixed_number_ignores_hint example_numbering (c_str "+1 213 321 9876")
      (c_str "+12133219876") (c_str "US") (c_str "DE") (by decide) (by decide) (by decide)).2⟩

end Chatty
